import Mathlib

/-!
Shallow embedding of the traffic-intersection simulator core
(`sim/traffic_policy.py`, `sim/network.py`, `sim/world.py`).

Modelling conventions:
* Python `float` values are modelled as exact rationals (`ℚ`); decimal
  literals from the source are carried over verbatim.
* Python `random.Random(seed)` is modelled as an explicit stream
  `g : Nat → Nat` (the pseudo-random sequence determined by the seed)
  together with a cursor position that every draw advances by one.
  `rng.choice(lst)` is modelled as indexing `lst` with `g pos % lst.length`,
  `rng.uniform(a, b)` as `a + (b - a) * (g pos % 1000) / 1000`, and the
  weighted `rng.choices` role draw by thresholding `g pos % 100` with the
  source weights (0.94 / 0.03 / 0.03).  All state of the generator is
  explicit, mirroring that the source seeds one `random.Random` per World.
* Irrational-valued library calls (`math.hypot`, and the `math.cos`/`math.sin`
  sampling of the constant turn-arc waypoint table) are abstracted as the
  parameter `RealOps`; comparisons of the form `math.hypot(dx, dy) < r` that
  concrete theorems depend on are translated to the exactly equivalent
  squared form (`hypot_lt`), since `hypot` is non-negative.
* Python exceptions (`AttributeError` from a missing dataclass attribute,
  `KeyError`/`IndexError` from missing dict keys or empty sequences) are
  modelled with `Option`/`Except`.  Attribute lookup on `SafetyPolicy` is
  modelled by `policy_getattr`, which enumerates exactly the numeric fields
  the frozen dataclass declares in `sim/traffic_policy.py`.
-/

namespace TrafficSim

attribute [local semireducible] Rat.add Rat.mul Rat.sub Rat.inv
  Rat.ofScientific

/-- Tunable parameters of `sim/traffic_policy.py` (`SafetyPolicy`, a frozen
dataclass).  Field names and default values are taken verbatim from the
source.  Note that the dataclass does NOT declare `intersection_box_half_m`,
`intersection_speed_cap_kmh` or `intersection_backtrack_m`, although
`sim/world.py` reads those attributes. -/
structure SafetyPolicy where
  lane_offset_m : ℚ := 7.0
  pass_threshold_m : ℚ := 0.0
  coast_decel_kmh_s : ℚ := 120.0
  max_accel_kmh_s : ℚ := 60.0
  max_brake_kmh_s : ℚ := 180.0
  green_launch_accel_kmh_s : ℚ := 120.0
  creep_filter_kmh : ℚ := 3.0
  ml_stop_target_speed_kmh : ℚ := 0.0
  ml_max_target_speed_kmh : ℚ := 120.0
  speed_limit_kmh : ℚ := 84.0
  base_collision_radius_m : ℚ := 2.2
  reaction_time_s : ℚ := 0.55
  horizon_s : ℚ := 1.2
  min_pair_distance_m : ℚ := 4.8
  max_pair_distance_m : ℚ := 11.0
  stop_sign_wait_s : ℚ := 0.2
  stop_line_offset_m : ℚ := 10.5
  stop_brake_zone_m : ℚ := 25.0
  world_signal_scheduler_enabled : Bool := false
  signal_window_s : ℚ := 2.6
  signal_switch_margin : ℚ := 0.45
  signal_control_radius_m : ℚ := 36.0
  red_soft_speed_kmh : ℚ := 8.0
  red_hard_radius_m : ℚ := 18.0
  world_collision_guard_enabled : Bool := true
  world_overlap_resolver_enabled : Bool := true
  collision_guard_soft_speed_kmh : ℚ := 10.0
  spawn_min_radius_m : ℚ := 70.0
  spawn_max_radius_m : ℚ := 140.0
  spawn_min_gap_m : ℚ := 18.0
  spawn_max_attempts : Nat := 300
  semaphore_enabled : Bool := true
  semaphore_green_s : ℚ := 8.0
  semaphore_yellow_s : ℚ := 2.0
  semaphore_red_clearance_s : ℚ := 1.0
  semaphore_brake_zone_m : ℚ := 30.0
  semaphore_stop_line_m : ℚ := 10.5
deriving DecidableEq

/-- Default-constructed `SafetyPolicy()`. -/
def defaultPolicy : SafetyPolicy := {}

/-- Python attribute lookup `getattr(policy, name)` for the numeric
parameters of the frozen dataclass: `some` exactly for the numeric fields
declared in `sim/traffic_policy.py`, `none` (an `AttributeError`) for every
other name — in particular for `intersection_box_half_m`,
`intersection_speed_cap_kmh` and `intersection_backtrack_m`, which
`sim/world.py` accesses. -/
def policy_getattr (p : SafetyPolicy) (name : String) : Option ℚ :=
  match name with
  | "lane_offset_m" => some p.lane_offset_m
  | "pass_threshold_m" => some p.pass_threshold_m
  | "coast_decel_kmh_s" => some p.coast_decel_kmh_s
  | "max_accel_kmh_s" => some p.max_accel_kmh_s
  | "max_brake_kmh_s" => some p.max_brake_kmh_s
  | "green_launch_accel_kmh_s" => some p.green_launch_accel_kmh_s
  | "creep_filter_kmh" => some p.creep_filter_kmh
  | "ml_stop_target_speed_kmh" => some p.ml_stop_target_speed_kmh
  | "ml_max_target_speed_kmh" => some p.ml_max_target_speed_kmh
  | "speed_limit_kmh" => some p.speed_limit_kmh
  | "base_collision_radius_m" => some p.base_collision_radius_m
  | "reaction_time_s" => some p.reaction_time_s
  | "horizon_s" => some p.horizon_s
  | "min_pair_distance_m" => some p.min_pair_distance_m
  | "max_pair_distance_m" => some p.max_pair_distance_m
  | "stop_sign_wait_s" => some p.stop_sign_wait_s
  | "stop_line_offset_m" => some p.stop_line_offset_m
  | "stop_brake_zone_m" => some p.stop_brake_zone_m
  | "signal_window_s" => some p.signal_window_s
  | "signal_switch_margin" => some p.signal_switch_margin
  | "signal_control_radius_m" => some p.signal_control_radius_m
  | "red_soft_speed_kmh" => some p.red_soft_speed_kmh
  | "red_hard_radius_m" => some p.red_hard_radius_m
  | "collision_guard_soft_speed_kmh" => some p.collision_guard_soft_speed_kmh
  | "spawn_min_radius_m" => some p.spawn_min_radius_m
  | "spawn_max_radius_m" => some p.spawn_max_radius_m
  | "spawn_min_gap_m" => some p.spawn_min_gap_m
  | "spawn_max_attempts" => some (p.spawn_max_attempts : ℚ)
  | "semaphore_green_s" => some p.semaphore_green_s
  | "semaphore_yellow_s" => some p.semaphore_yellow_s
  | "semaphore_red_clearance_s" => some p.semaphore_red_clearance_s
  | "semaphore_brake_zone_m" => some p.semaphore_brake_zone_m
  | "semaphore_stop_line_m" => some p.semaphore_stop_line_m
  | _ => none

/-- Role weights of `sim/traffic_policy.py` (`_ROLE_WEIGHT`, with `dict.get`
default 0.0). -/
def role_weight (role : String) : ℚ :=
  match role with
  | "civilian" => 0.0
  | "bus" => 0.4
  | "taxi" => 0.2
  | "police" => 2.0
  | "ambulance" => 2.5
  | "fire" => 2.3
  | _ => 0.0

/-- Conversion `to_mps`: km/h to m/s clamping negatives to zero. -/
def to_mps (speed_kmh : ℚ) : ℚ := max 0 speed_kmh / (36/10)

/-- Stopping distance `braking_distance_m` with constant deceleration. -/
def braking_distance_m (speed_kmh max_brake_kmh_s : ℚ) : ℚ :=
  let v := to_mps speed_kmh
  let decel_mps2 := max (1/10) (max_brake_kmh_s / (36/10))
  (v * v) / (2 * decel_mps2)

/-- A single crossroads of `sim/network.py` (`IntersectionNode` dataclass):
identity, world-space centre, control type, priority axis, and the runtime
semaphore state mutated by `World`. -/
structure IntersectionNode where
  id : String
  cx : ℚ
  cy : ℚ
  has_semaphore : Bool := true
  priority_axis : String := "EW"
  sem_green_axis : String := ""
  sem_phase : String := "GREEN"
  sem_timer : ℚ := 0.0
deriving DecidableEq

/-- Dataclass construction of `IntersectionNode` with default runtime fields
followed by `__post_init__`: an empty `sem_green_axis` is replaced by
`priority_axis`. -/
def mkIntersectionNode (id : String) (cx cy : ℚ) (has_semaphore : Bool)
    (priority_axis : String) : IntersectionNode :=
  let n : IntersectionNode :=
    { id := id, cx := cx, cy := cy, has_semaphore := has_semaphore,
      priority_axis := priority_axis }
  if n.sem_green_axis = "" then { n with sem_green_axis := n.priority_axis } else n

/-- An undirected road of `sim/network.py` (`RoadSegment`): cars exiting
`from_id` via `from_arm` arrive at `to_id` on `to_arm`. -/
structure RoadSegment where
  from_id : String
  from_arm : String
  to_id : String
  to_arm : String
deriving DecidableEq

/-- Graph of intersections (`RoadNetwork`).  The Python `intersections`
dict (insertion-ordered, keyed by `node.id`) is modelled as the node list in
insertion order with `findNode` as keyed lookup. -/
structure RoadNetwork where
  nodes : List IntersectionNode
  roads : List RoadSegment
  road_half_w : ℚ := 10.0
  terminal_arm_length : ℚ := 80.0
deriving DecidableEq

/-- Keyed lookup `self.intersections.get(int_id)`. -/
def findNode (net : RoadNetwork) (int_id : String) : Option IntersectionNode :=
  net.nodes.find? (fun n => n.id = int_id)

/-- Connection lookup `(int_id, arm) → (other_id, other_arm)`.  The Python
pre-computed dict is written by iterating the road list and inserting both
endpoint keys, so a later road overwrites an earlier duplicate key: the
lookup scans the roads in reverse, checking the `to`-entry of a road before
its `from`-entry (the `to`-entry is inserted second). -/
def connected_arm (net : RoadNetwork) (int_id arm : String) :
    Option (String × String) :=
  net.roads.reverse.findSome? (fun r =>
    if r.to_id = int_id ∧ r.to_arm = arm then some (r.from_id, r.from_arm)
    else if r.from_id = int_id ∧ r.from_arm = arm then some (r.to_id, r.to_arm)
    else none)

/-- Arm with no connection (`is_terminal`). -/
def is_terminal (net : RoadNetwork) (int_id arm : String) : Bool :=
  (connected_arm net int_id arm).isNone

/-- All dead-end arms (`terminal_arms`), iterating nodes in insertion order
and arms in the order `N, S, E, W` as the source does. -/
def terminal_arms (net : RoadNetwork) : List (String × String) :=
  net.nodes.flatMap (fun n =>
    (["N", "S", "E", "W"].filter (fun a => is_terminal net n.id a)).map
      (fun a => (n.id, a)))

/-- Unit velocity vector for a car entering along an arm
(`arm_direction_vector`); the source indexes a four-key dict, raising
`KeyError` on other strings, hence `Option`. -/
def arm_direction_vector (arm : String) : Option (ℚ × ℚ) :=
  match arm with
  | "W" => some (1.0, 0.0)
  | "E" => some (-1.0, 0.0)
  | "N" => some (0.0, -1.0)
  | "S" => some (0.0, 1.0)
  | _ => none

/-- World `(x, y, vx, vy)` for a car spawning on an arm
(`arm_spawn_position`); `none` models the `KeyError` of a missing
intersection id or arm. -/
def arm_spawn_position (net : RoadNetwork) (int_id arm : String)
    (distance lane_offset : ℚ) : Option (ℚ × ℚ × ℚ × ℚ) := do
  let node ← findNode net int_id
  let v ← arm_direction_vector arm
  match arm with
  | "W" => some (node.cx - distance, node.cy - lane_offset, v.1, v.2)
  | "E" => some (node.cx + distance, node.cy + lane_offset, v.1, v.2)
  | "N" => some (node.cx - lane_offset, node.cy + distance, v.1, v.2)
  | _ => some (node.cx + lane_offset, node.cy - distance, v.1, v.2)

/-- Per-vehicle entity of `sim/world.py` (`Car` dataclass).  The waypoint
queue `_turn_waypoints` is the `turn_waypoints` field. -/
structure Car where
  id : String
  x : ℚ
  y : ℚ
  speed : ℚ
  ml_direction : String
  approach : String
  role : String := "civilian"
  cruise_speed : ℚ := 0.0
  speed_limit_kmh : ℚ := 42.0
  wait_s : ℚ := 0.0
  vx : ℚ := 0.0
  vy : ℚ := 0.0
  current_int_id : String := ""
  passed : Bool := false
  stopped : Bool := false
  stop_wait_s : ℚ := 0.0
  stop_completed : Bool := false
  has_turned : Bool := false
  turn_waypoints : List (ℚ × ℚ) := []
deriving DecidableEq

/-- The attribute names of the `Car` dataclass in `sim/world.py`, in
declaration order.  Reading any other attribute name on a `Car` instance
raises `AttributeError` in Python; in particular the dataclass declares no
`priority` field, although `sim/test_collision_safety.py` reads
`car.priority` and passes `priority=True` to the constructor. -/
def carAttrNames : List String :=
  ["id", "x", "y", "speed", "ml_direction", "approach", "role",
   "cruise_speed", "speed_limit_kmh", "wait_s", "vx", "vy",
   "current_int_id", "passed", "stopped", "stop_wait_s", "stop_completed",
   "has_turned", "_turn_waypoints"]

/-- Whether Python attribute access `car.<name>` succeeds on the `Car`
dataclass of `sim/world.py`. -/
def carHasAttr (name : String) : Bool := carAttrNames.contains name

/-- Dataclass `__post_init__` of `Car`: a non-positive `cruise_speed` is
replaced by the current speed. -/
def carPostInit (c : Car) : Car :=
  if c.cruise_speed ≤ 0.0 then { c with cruise_speed := c.speed } else c

/-- Derived property `Car.is_turning`: actively following turn waypoints. -/
def Car.is_turning (c : Car) : Bool := !c.turn_waypoints.isEmpty

/-- Predicate `Car.has_passed`: the car is `threshold` metres past
`(cx, cy)` along its travel axis. -/
def Car.has_passed (c : Car) (threshold cx cy : ℚ) : Bool :=
  let rx := c.x - cx
  let ry := c.y - cy
  if c.vx > 0 ∧ rx > threshold then true
  else if c.vx < 0 ∧ rx < -threshold then true
  else if c.vy > 0 ∧ ry > threshold then true
  else if c.vy < 0 ∧ ry < -threshold then true
  else false

/-- Dynamic minimum pair distance (`pair_safe_distance_m` of
`sim/traffic_policy.py`); the `getattr(..., "speed", 0.0)` defaults always
hit the declared `speed` field of `Car`. -/
def pair_safe_distance_m (a b : Car) (p : SafetyPolicy) : ℚ :=
  let va := to_mps a.speed
  let vb := to_mps b.speed
  let reaction := (va + vb) * p.reaction_time_s * 0.5
  let braking := (braking_distance_m a.speed p.max_brake_kmh_s
    + braking_distance_m b.speed p.max_brake_kmh_s) * 0.5
  let base := max p.min_pair_distance_m (p.base_collision_radius_m * 2.0)
  let safe := base + reaction + 0.35 * braking
  max p.min_pair_distance_m (min p.max_pair_distance_m safe)

/-- ASCII-faithful model of Python `str.lower()` on role strings. -/
def strLower (s : String) : String := String.mk (s.data.map Char.toLower)

/-- ASCII-faithful model of Python `str.upper()`. -/
def strUpper (s : String) : String := String.mk (s.data.map Char.toUpper)

/-- Scheduling-priority score (`danger_score` of `sim/traffic_policy.py`).
Every `getattr` default resolves to the corresponding declared `Car`
field. -/
def danger_score (car : Car) (p : SafetyPolicy) : ℚ :=
  let speed := max 0.0 car.speed
  let speed_limit := max 1.0 car.speed_limit_kmh
  let speed_factor := min 2.0 (speed / speed_limit)
  let overspeed := max 0.0 (speed - speed_limit) / speed_limit
  let stop_dist := braking_distance_m speed p.max_brake_kmh_s
  let wait_s := max 0.0 car.wait_s
  let role_bonus := role_weight (strLower car.role)
  role_bonus + speed_factor + 1.2 * overspeed
    + min 2.0 (stop_dist / 35.0) + min 2.0 (wait_s / 6.0)

/-- Association-list lookup modelling `dict.get(key)` for string-keyed
Python dicts (keys are unique in every dict the source builds). -/
def alookup (l : List (String × α)) (k : String) : Option α :=
  (l.find? (fun e => e.1 = k)).map (fun e => e.2)

/-- Lookup with default, modelling `dict.get(key, default)`. -/
def alookupD (l : List (String × α)) (k : String) (d : α) : α :=
  (alookup l k).getD d

/-- Keyed store `dict[key] = value`: replaces the first binding or appends
a new one, preserving the dict's insertion order. -/
def aset (l : List (String × α)) (k : String) (v : α) : List (String × α) :=
  match l with
  | [] => [(k, v)]
  | e :: rest => if e.1 = k then (k, v) :: rest else e :: aset rest k v

/-- Exact translation of the comparison `math.hypot(dx, dy) < r`: since
`hypot` is non-negative, it is equivalent to `0 < r ∧ dx² + dy² < r²`. -/
def hypot_lt (dx dy r : ℚ) : Bool :=
  decide (0 < r ∧ dx * dx + dy * dy < r * r)

/-- Exact translation of the comparison `math.hypot(dx, dy) <= r`. -/
def hypot_le (dx dy r : ℚ) : Bool :=
  decide (0 ≤ r ∧ dx * dx + dy * dy ≤ r * r)

/-- Abstraction of the irrational-valued library helpers: `hypot` stands for
`math.hypot`, and `turn_wps` for the module-level `_TURN_WAYPOINTS` table of
`sim/world.py`, whose entries are fixed points sampled with
`math.cos`/`math.sin` along circular arcs for the eight
`(approach, ml_direction)` turn combinations (`dict.get` returns `none`
for other keys, in particular for `FORWARD`). -/
structure RealOps where
  hypot : ℚ → ℚ → ℚ
  turn_wps : String → String → Option (List (ℚ × ℚ))

/-- The module constant `_ML_DIRECTIONS` of `sim/world.py`. -/
def mlDirectionsList : List String := ["FORWARD", "LEFT", "RIGHT"]

/-- The module constant `_APPROACHES` of `sim/world.py`. -/
def approachesList : List String := ["W", "N", "E", "S"]

/-- The module constant `_TURN_TRIGGER` of `sim/world.py`
(with `dict.get(ml_direction, 5.0)`): `_L + _ARC_RIGHT_R + 1.0 = 10.0` for
RIGHT, `4.0` for LEFT. -/
def turn_trigger (ml_direction : String) : ℚ :=
  match ml_direction with
  | "RIGHT" => 10.0
  | "LEFT" => 4.0
  | _ => 5.0

/-- One draw of `rng.choice` modelled as an index into the sequence. -/
def choiceIdx (g : Nat → Nat) (pos n : Nat) : Nat := g pos % n

/-- One draw of `rng.uniform(a, b)` modelled through the stream. -/
def uniformDraw (g : Nat → Nat) (pos : Nat) (a b : ℚ) : ℚ :=
  a + (b - a) * ((g pos % 1000 : Nat) : ℚ) / 1000

/-- One draw of the weighted role choice
`rng.choices(("civilian", "ambulance", "police"), weights=(0.94, 0.03, 0.03))`. -/
def roleDraw (g : Nat → Nat) (pos : Nat) : String :=
  let r := g pos % 100
  if r < 94 then "civilian" else if r < 97 then "ambulance" else "police"

/-- Sign-table construction `World._build_signs_by_approach`, keeping the
source's dict insertion order. -/
def build_signs_by_approach (priority_axis : String) : List (String × String) :=
  let axis := strUpper priority_axis
  if axis = "NS" ∨ axis = "SN" then
    [("N", "PRIORITY"), ("S", "PRIORITY"), ("E", "STOP"), ("W", "YIELD")]
  else
    [("E", "PRIORITY"), ("W", "PRIORITY"), ("N", "STOP"), ("S", "YIELD")]

/-- Axis normalisation `World._normalize_priority_axis`. -/
def normalize_priority_axis (priority_axis : String) : String :=
  let axis := strUpper priority_axis
  if axis = "NS" ∨ axis = "SN" then "NS" else "EW"

/-- Semaphore initialisation loop shared by `World.__init__` and
`World._init_cars`: semaphore nodes get their priority axis, a GREEN phase
and a staggered timer (`semaphore_green_s + offset`, the offset growing by
half a green cycle per semaphore node); sign-only nodes get their semaphore
state cleared to empty strings. -/
def init_sem_nodes (p : SafetyPolicy) : List IntersectionNode → ℚ → List IntersectionNode
  | [], _ => []
  | n :: rest, off =>
    if n.has_semaphore then
      { n with sem_green_axis := n.priority_axis, sem_phase := "GREEN",
               sem_timer := p.semaphore_green_s + off }
        :: init_sem_nodes p rest (off + p.semaphore_green_s / 2.0)
    else
      { n with sem_green_axis := "", sem_phase := "", sem_timer := 0.0 }
        :: init_sem_nodes p rest off

/-- Vehicle id formatting `f"CAR_{idx:03d}"`. -/
def carName (idx : Nat) : String :=
  "CAR_" ++ (if idx < 10 then "00" else if idx < 100 then "0" else "")
    ++ toString idx

/-- Spawn-gap check `World._spawn_is_clear` against the already-placed
cars, with the `math.hypot(...) < spawn_min_gap_m` comparison in exact
squared form. -/
def spawn_is_clear (p : SafetyPolicy) (placed : List Car) (x y : ℚ) : Bool :=
  placed.all (fun c => !(hypot_lt (c.x - x) (c.y - y) p.spawn_min_gap_m))

/-- Bounded random-placement loop of `World._make_random_car`: each attempt
draws a distance, computes a candidate on the current arm, and either
succeeds or redraws a terminal arm for the next attempt.  Returns the
successful `(candidate, int_id, arm)` or `none` after the attempt budget,
together with the advanced stream position; the outer `Option` models the
`KeyError`/`IndexError` of a malformed network. -/
def spawn_attempt_loop (g : Nat → Nat) (p : SafetyPolicy) (net : RoadNetwork)
    (placed : List Car) :
    Nat → String → String → Nat →
    Option (Option ((ℚ × ℚ × ℚ × ℚ) × String × String) × Nat)
  | 0, _, _, pos => some (none, pos)
  | fuel + 1, int_id, arm, pos => do
    let distance := uniformDraw g pos p.spawn_min_radius_m p.spawn_max_radius_m
    let cand ← arm_spawn_position net int_id arm distance p.lane_offset_m
    if spawn_is_clear p placed cand.1 cand.2.1 then
      some (some (cand, int_id, arm), pos + 1)
    else do
      let tarms := terminal_arms net
      let next ← tarms[choiceIdx g (pos + 1) tarms.length]?
      spawn_attempt_loop g p net placed fuel next.1 next.2 (pos + 2)

/-- Spawn of one car (`World._make_random_car`): random terminal arm, speed,
manoeuvre and role draws, emergency speed boost, bounded placement attempts,
and the deterministic fallback (terminal arm indexed by `idx`, radial
distance `spawn_min_radius_m + idx * 10`). -/
def make_random_car (g : Nat → Nat) (p : SafetyPolicy) (net : RoadNetwork)
    (placed : List Car) (idx pos : Nat) : Option (Car × Nat) := do
  let tarms := terminal_arms net
  let arm0 ← tarms[choiceIdx g pos tarms.length]?
  let speed0 := uniformDraw g (pos + 1) 60.0 (p.speed_limit_kmh + 10.0)
  let mlDir := (mlDirectionsList[choiceIdx g (pos + 2) 3]?).getD "FORWARD"
  let role := roleDraw g (pos + 3)
  let speed := if role = "ambulance" ∨ role = "police"
    then speed0 * 1.1 else speed0
  let res ← spawn_attempt_loop g p net placed p.spawn_max_attempts
    arm0.1 arm0.2 (pos + 4)
  match res.1 with
  | some (cand, int_id, arm) =>
    some (carPostInit
      { id := carName idx, x := cand.1, y := cand.2.1, speed := speed,
        ml_direction := mlDir, approach := arm, role := role,
        cruise_speed := speed, speed_limit_kmh := p.speed_limit_kmh,
        vx := cand.2.2.1, vy := cand.2.2.2, current_int_id := int_id },
      res.2)
  | none => do
    let fallback ← tarms[idx % tarms.length]?
    let distance := p.spawn_min_radius_m + (idx : ℚ) * 10.0
    let cand ← arm_spawn_position net fallback.1 fallback.2 distance
      p.lane_offset_m
    some (carPostInit
      { id := carName idx, x := cand.1, y := cand.2.1, speed := speed,
        ml_direction := mlDir, approach := fallback.2, role := role,
        cruise_speed := speed, speed_limit_kmh := p.speed_limit_kmh,
        vx := cand.2.2.1, vy := cand.2.2.2, current_int_id := fallback.1 },
      res.2)

/-- Spawn loop of `World._init_cars`: appends one car per index, each
placement checked against the cars already spawned. -/
def spawn_cars_go (g : Nat → Nat) (p : SafetyPolicy) (net : RoadNetwork) :
    Nat → Nat → Nat → List Car → Option (List Car × Nat)
  | 0, _, pos, acc => some (acc, pos)
  | remaining + 1, idx, pos, acc => do
    let c ← make_random_car g p net acc idx pos
    spawn_cars_go g p net remaining (idx + 1) c.2 (acc ++ [c.1])

/-- Entity-based multi-intersection scenario (`World` of `sim/world.py`).
The Python `self._rng` is the stream `g` used by every operation together
with the cursor `rng_pos`; the legacy single-intersection semaphore shims
are the `*_legacy` fields. -/
structure World where
  policy : SafetyPolicy
  priority_axis : String
  network : RoadNetwork
  signs : List (String × List (String × String))
  signs_by_approach : List (String × String)
  current_sign : String
  num_cars : Nat
  rng_pos : Nat
  cars : List Car
  safety_interventions : Nat
  collision_resolutions : Nat
  green_approach : String
  green_ttl_s : ℚ
  tick_count : Nat
  sem_green_axis_legacy : String
  sem_phase_legacy : String
  sem_timer_legacy : ℚ
  finished : Bool
deriving DecidableEq

/-- Construction `World.__init__(num_cars, seed, policy, priority_axis,
network)` for an explicitly given network (the `network or
default_network()` argument after evaluation); the seed is represented by
its pseudo-random stream `g`.  Runs the per-intersection sign-table
construction, `max(1, int(num_cars))`, the staggered semaphore
initialisation, and `_init_cars` (which re-runs the semaphore
initialisation with identical effect, spawns all cars from stream position
0, and clears `_finished`). -/
def mkWorld (g : Nat → Nat) (num_cars : ℤ) (policy : SafetyPolicy)
    (priority_axis : String) (network : RoadNetwork) : Option World := do
  let nc := (max 1 num_cars).toNat
  let spawned ← spawn_cars_go g policy network nc 0 0 []
  some
    { policy := policy,
      priority_axis := normalize_priority_axis priority_axis,
      network := { network with
        nodes := init_sem_nodes policy network.nodes 0.0 },
      signs := network.nodes.map
        (fun n => (n.id, build_signs_by_approach n.priority_axis)),
      signs_by_approach := build_signs_by_approach
        (normalize_priority_axis priority_axis),
      current_sign := "YIELD",
      num_cars := nc,
      rng_pos := spawned.2,
      cars := spawned.1,
      safety_interventions := 0,
      collision_resolutions := 0,
      green_approach := "W",
      green_ttl_s := 0.0,
      tick_count := 0,
      sem_green_axis_legacy := "EW",
      sem_phase_legacy := "GREEN",
      sem_timer_legacy := policy.semaphore_green_s,
      finished := false }

/-- Scenario replay `World.reset`, which only calls `World._init_cars`:
cars are respawned with the generator continuing from the World's current
stream position — the generator is NOT re-seeded — counters and the
virtual-signal state are cleared, semaphore state is re-staggered, and the
finished flag is cleared. -/
def resetWorld (g : Nat → Nat) (w : World) : Option World := do
  let spawned ← spawn_cars_go g w.policy w.network w.num_cars 0 w.rng_pos []
  some { w with
    cars := spawned.1,
    rng_pos := spawned.2,
    safety_interventions := 0,
    collision_resolutions := 0,
    green_approach := "W",
    green_ttl_s := 0.0,
    network := { w.network with
      nodes := init_sem_nodes w.policy w.network.nodes 0.0 },
    sem_green_axis_legacy := "EW",
    sem_phase_legacy := "GREEN",
    sem_timer_legacy := w.policy.semaphore_green_s,
    finished := false }

/-- Query `World.is_finished`. -/
def is_finished (w : World) : Bool := w.finished

/-- Sign lookup `World.sign_for_car`: the car's intersection's sign table
(falling back to the legacy table), then the approach key with default
`NO_SIGN`. -/
def sign_for_car (w : World) (car : Car) : String :=
  let table := (alookup w.signs car.current_int_id).getD w.signs_by_approach
  alookupD table (strUpper car.approach) "NO_SIGN"

/-- Parsed form of one per-car decision payload (§ the untyped dict consumed
by `World._build_target_speeds`): `decision` is the payload's `decision`
entry if present; `target_speed_kmh` is `none` when the key is absent,
`some none` when present but not convertible by `float(...)`, and
`some (some q)` when convertible.  A non-dict payload `raw` corresponds to
`⟨some raw, none⟩` via the `isinstance` branch of the source. -/
structure DecisionMsg where
  decision : Option String := none
  target_speed_kmh : Option (Option ℚ) := none
deriving DecidableEq

/-- The `AttributeError` raised by `World._car_in_intersection`, because the
frozen `SafetyPolicy` dataclass declares no `intersection_box_half_m`. -/
def attrErrBoxHalf : String :=
  "AttributeError: SafetyPolicy has no attribute intersection_box_half_m"

/-- The `AttributeError` of the `intersection_speed_cap_kmh` access. -/
def attrErrSpeedCap : String :=
  "AttributeError: SafetyPolicy has no attribute intersection_speed_cap_kmh"

/-- The `AttributeError` of the `intersection_backtrack_m` access. -/
def attrErrBacktrack : String :=
  "AttributeError: SafetyPolicy has no attribute intersection_backtrack_m"

/-- Centre of a car's current intersection (`World._int_center`, with the
`(0, 0)` fallback for an unknown id). -/
def int_center (net : RoadNetwork) (car : Car) : ℚ × ℚ :=
  match findNode net car.current_int_id with
  | some n => (n.cx, n.cy)
  | none => (0.0, 0.0)

/-- Signed distance to a point along the travel axis
(`World._distance_to_center_xy`); the zero-velocity fallback is the
euclidean distance. -/
def distance_to_center_xy (R : RealOps) (car : Car) (cx cy : ℚ) : ℚ :=
  let rx := car.x - cx
  let ry := car.y - cy
  if car.vx > 0 then -rx
  else if car.vx < 0 then rx
  else if car.vy < 0 then ry
  else if car.vy > 0 then -ry
  else R.hypot rx ry

/-- Signed distance to the car's intersection centre
(`World._distance_to_center`). -/
def distance_to_center (R : RealOps) (net : RoadNetwork) (car : Car) : ℚ :=
  let c := int_center net car
  distance_to_center_xy R car c.1 c.2

/-- Distance from a car to its stop line along the travel axis
(`World._distance_to_stop_line`). -/
def distance_to_stop_line (R : RealOps) (p : SafetyPolicy) (net : RoadNetwork)
    (car : Car) : ℚ :=
  let c := int_center net car
  let rx := car.x - c.1
  let ry := car.y - c.2
  let edge := p.stop_line_offset_m
  if car.vx > 0 then -rx - edge
  else if car.vx < 0 then rx - edge
  else if car.vy < 0 then ry - edge
  else if car.vy > 0 then -ry - edge
  else R.hypot rx ry

/-- Intersection-box membership test `World._car_in_intersection`.  The
frozen `SafetyPolicy` has no `intersection_box_half_m` attribute, so the
very first step of the source raises `AttributeError`; the surviving branch
is the comparison the source would perform. -/
def car_in_intersection (p : SafetyPolicy) (net : RoadNetwork) (car : Car) :
    Except String Bool :=
  match policy_getattr p "intersection_box_half_m" with
  | none => .error attrErrBoxHalf
  | some half =>
    let c := int_center net car
    pure (decide (|car.x - c.1| < half ∧ |car.y - c.2| < half))

/-- Emergency-role test `World._is_emergency`. -/
def is_emergency (car : Car) : Bool :=
  car.role = "ambulance" ∨ car.role = "police" ∨ car.role = "fire"

/-- Approach-to-axis table used by the semaphore colour queries (a dict with
`get(..., "EW")` default). -/
def axis_for_approach (a : String) : String :=
  match a with
  | "N" => "NS"
  | "S" => "NS"
  | "E" => "EW"
  | "W" => "EW"
  | _ => "EW"

/-- Colour query `World.semaphore_color_for_car`. -/
def semaphore_color_for_car (w : World) (car : Car) : String :=
  match findNode w.network car.current_int_id with
  | none => "GREEN"
  | some node =>
    if !node.has_semaphore then "GREEN"
    else if axis_for_approach car.approach = node.sem_green_axis then
      node.sem_phase
    else "RED"

/-- One node of the fixed-cycle state machine advanced by
`World._update_semaphore`: decrement the timer, and on expiry step
`GREEN → YELLOW → RED → (other axis) GREEN`. -/
def sem_step_node (p : SafetyPolicy) (dt : ℚ) (n : IntersectionNode) :
    IntersectionNode :=
  if !n.has_semaphore then n
  else
    let n1 := { n with sem_timer := n.sem_timer - dt }
    if n1.sem_timer > 0 then n1
    else if n1.sem_phase = "GREEN" then
      { n1 with sem_phase := "YELLOW", sem_timer := p.semaphore_yellow_s }
    else if n1.sem_phase = "YELLOW" then
      { n1 with sem_phase := "RED", sem_timer := p.semaphore_red_clearance_s }
    else
      let other := if n1.sem_green_axis = "EW" then "NS" else "EW"
      { n1 with
          sem_green_axis := other, sem_phase := "GREEN",
          sem_timer := p.semaphore_green_s }

/-- Fixed-cycle semaphore advance `World._update_semaphore`, including the
final sync of the legacy single-intersection fields with the first
semaphore intersection. -/
def update_semaphore (w : World) (dt : ℚ) : World :=
  let nodes := w.network.nodes.map (sem_step_node w.policy dt)
  let w1 := { w with network := { w.network with nodes := nodes } }
  match nodes.find? (fun n => n.has_semaphore) with
  | some n =>
    { w1 with
        sem_green_axis_legacy := n.sem_green_axis,
        sem_phase_legacy := n.sem_phase, sem_timer_legacy := n.sem_timer }
  | none => w1

/-- Virtual-signal yield test `World._must_yield_to_signal`, with the
`dist > signal_control_radius_m` comparison in exact squared form. -/
def must_yield_to_signal (w : World) (car : Car) : Bool :=
  if car.passed then false
  else if is_emergency car then false
  else
    let c := int_center w.network car
    if !(hypot_le (car.x - c.1) (car.y - c.2)
        w.policy.signal_control_radius_m) then false
    else car.approach != w.green_approach

/-- Add a score to an existing key of the per-approach score dict; `none`
models the `KeyError` the source raises when a car's `approach` is not one
of the four initialised keys. -/
def bump_score (scores : List (String × ℚ)) (k : String) (v : ℚ) :
    Option (List (String × ℚ)) :=
  match scores with
  | [] => none
  | e :: rest =>
    if e.1 = k then some ((e.1, e.2 + v) :: rest)
    else (bump_score rest k v).map (fun r => e :: r)

/-- Python `max(scores, key=scores.get)` over the dict's insertion order:
the first key attaining the maximum score. -/
def argmax_score (scores : List (String × ℚ)) : String × ℚ :=
  match scores with
  | [] => ("", 0)
  | e :: rest => rest.foldl (fun best x => if x.2 > best.2 then x else best) e

/-- Danger-score based green-phase scheduler `World._update_virtual_signal`
(enabled only by `world_signal_scheduler_enabled`). -/
def update_virtual_signal (w : World) (dt : ℚ) : Except String World :=
  let ttl := max 0.0 (w.green_ttl_s - dt)
  let init : List (String × ℚ) := approachesList.map (fun a => (a, 0.0))
  Except.bind
    (w.cars.foldlM (fun scores car =>
      if car.passed then pure scores
      else
        let c := int_center w.network car
        if !(hypot_le (car.x - c.1) (car.y - c.2)
            w.policy.signal_control_radius_m) then pure scores
        else
          let score := danger_score car w.policy
            + (if is_emergency car then 3.0 else 0.0)
          match bump_score scores car.approach score with
          | some s => Except.ok s
          | none => Except.error "KeyError: approach"
      ) init)
    (fun scores =>
      let best := argmax_score scores
      let current_score := alookupD scores w.green_approach 0.0
      let should_switch := ttl ≤ 0.0
        ∨ (best.1 ≠ w.green_approach
            ∧ best.2 > current_score + w.policy.signal_switch_margin)
      if should_switch ∧ best.2 > 0.0 then
        pure { w with
                 green_approach := best.1,
                 green_ttl_s := w.policy.signal_window_s }
      else pure { w with green_ttl_s := ttl })

/-- Decision-to-speed-target conversion
`World._target_speed_from_decision`. -/
def target_speed_from_decision (p : SafetyPolicy) (car : Car)
    (payload : DecisionMsg) : ℚ :=
  match payload.target_speed_kmh with
  | some parsed =>
    let explicit := parsed.getD car.cruise_speed
    max 0.0 (min explicit p.ml_max_target_speed_kmh)
  | none =>
    let d := strUpper (payload.decision.getD "none")
    if d = "STOP" then max 0.0 p.ml_stop_target_speed_kmh
    else car.cruise_speed

/-- Semaphore enforcement branch of `World._build_target_speeds` for a car
whose intersection has a semaphore (and which has not passed). -/
def sem_enforce (R : RealOps) (w : World) (car : Car) (t : ℚ) : Car × ℚ :=
  let p := w.policy
  let sem_color := semaphore_color_for_car w car
  if sem_color = "RED" ∨ sem_color = "YELLOW" then
    let dl := distance_to_stop_line R p w.network car
    if dl > p.semaphore_brake_zone_m then (car, max t car.cruise_speed)
    else if dl > 0.0 then
      (car, min t (dl / p.semaphore_brake_zone_m * car.cruise_speed))
    else if dl > -2.0 then (car, 0.0)
    else (car, max t car.cruise_speed)
  else if sem_color = "GREEN" then
    ({ car with stop_completed := true }, max t car.cruise_speed)
  else (car, t)

/-- Sign (STOP / YIELD) enforcement branch of
`World._build_target_speeds` for a car on a sign-only intersection. -/
def sign_enforce (R : RealOps) (w : World) (dt : ℚ) (car : Car) (t : ℚ) :
    Car × ℚ :=
  let p := w.policy
  let sign := sign_for_car w car
  let required_wait :=
    if sign = "STOP" then p.stop_sign_wait_s
    else if sign = "YIELD" then p.stop_sign_wait_s * 0.5
    else 0.0
  if required_wait > 0.0 ∧ !car.passed then
    if !car.stop_completed then
      let dl := distance_to_stop_line R p w.network car
      if dl > p.stop_brake_zone_m then (car, max t car.cruise_speed)
      else if dl > 0.0 then
        let t2 := min t (dl / p.stop_brake_zone_m * car.cruise_speed)
        let car1 := if car.speed < 1.0 then
          { car with stop_wait_s := car.stop_wait_s + dt } else car
        let car2 := if car1.stop_wait_s ≥ required_wait then
          { car1 with stop_completed := true } else car1
        (car2, t2)
      else
        let car1 := if car.speed < 1.0 then
          { car with stop_wait_s := car.stop_wait_s + dt } else car
        let car2 := if car1.stop_wait_s ≥ required_wait then
          { car1 with stop_completed := true } else car1
        (car2, 0.0)
    else (car, max t car.cruise_speed)
  else (car, t)

/-- Per-car body of `World._build_target_speeds`: decision target, optional
virtual-signal cap, semaphore or sign enforcement, then the intersection-box
speed cap — whose `_car_in_intersection` call reads the missing
`intersection_box_half_m` attribute and therefore raises. -/
def build_target_for_car (R : RealOps) (w : World) (payload : DecisionMsg)
    (dt : ℚ) (car : Car) : Except String (Car × ℚ) :=
  let p := w.policy
  let t0 := target_speed_from_decision p car payload
  let t1 :=
    if p.world_signal_scheduler_enabled ∧ must_yield_to_signal w car then
      let c := int_center w.network car
      if hypot_le (car.x - c.1) (car.y - c.2) p.red_hard_radius_m then 0.0
      else min t0 p.red_soft_speed_kmh
    else t0
  let car_has_sem : Bool := match findNode w.network car.current_int_id with
    | some n => n.has_semaphore
    | none => false
  let step2 : Car × ℚ :=
    if car_has_sem && !car.passed then sem_enforce R w car t1
    else if !car_has_sem then sign_enforce R w dt car t1
    else (car, t1)
  Except.bind (car_in_intersection p w.network step2.fst) (fun in_box =>
    if in_box ∧ !step2.fst.passed then
      let sem_color := semaphore_color_for_car w step2.fst
      let committed :=
        distance_to_stop_line R p w.network step2.fst < -2.0
      if committed ∧ sem_color = "YELLOW" then
        pure (step2.fst, max step2.snd step2.fst.cruise_speed)
      else
        match policy_getattr p "intersection_speed_cap_kmh" with
        | none => .error attrErrSpeedCap
        | some cap => pure (step2.fst, min step2.snd cap)
    else pure (step2.fst, step2.snd))

/-- Loop of `World._build_target_speeds` over `self.cars`, threading the
in-place car mutations and the growing `targets` dict. -/
def build_targets_go (R : RealOps) (w : World)
    (decisions : String → Option DecisionMsg) (dt : ℚ) :
    List Car → List (String × ℚ) →
    Except String (List Car × List (String × ℚ))
  | [], acc => pure ([], acc)
  | c :: rest, acc =>
    Except.bind (build_target_for_car R w ((decisions c.id).getD {}) dt c)
      (fun ct =>
        Except.bind
          (build_targets_go R w decisions dt rest (aset acc ct.fst.id ct.snd))
          (fun rt => pure (ct.fst :: rt.fst, rt.snd)))

/-- Placeholder entity for out-of-range list indexing; every index the
translated loops use is in range, mirroring the source's index arithmetic. -/
def junkCar : Car :=
  { id := "", x := 0, y := 0, speed := 0, ml_direction := "", approach := "" }

/-- Sign rank table `_SIGN_RANK` of `World._pick_yielder`
(with `dict.get(sign, 2)`). -/
def sign_rank (s : String) : Nat :=
  match s with
  | "PRIORITY" => 3
  | "NO_SIGN" => 2
  | "YIELD" => 1
  | "STOP" => 0
  | _ => 2

/-- Yielder arbitration cascade `World._pick_yielder`, returning `true`
when car `a` is the yielder (the source returns the yielder object). -/
def pick_yielder_a (R : RealOps) (w : World) (a b : Car) : Bool :=
  let p := w.policy
  let da_line := distance_to_stop_line R p w.network a
  let db_line := distance_to_stop_line R p w.network b
  let a_in := da_line ≤ 0.0 && !a.passed
  let b_in := db_line ≤ 0.0 && !b.passed
  if a_in && !b_in then false
  else if b_in && !a_in then true
  else if a.passed && !b.passed then false
  else if b.passed && !a.passed then true
  else if a.vx = b.vx ∧ a.vy = b.vy ∧ a.vx ≠ 0 ∧ |a.y - b.y| ≤ 1.0 then
    !(decide ((a.x - b.x) * a.vx > 0))
  else if a.vx = b.vx ∧ a.vy = b.vy ∧ a.vy ≠ 0 ∧ |a.x - b.x| ≤ 1.0 then
    !(decide ((a.y - b.y) * a.vy > 0))
  else
    let sa := sign_rank (sign_for_car w a)
    let sb := sign_rank (sign_for_car w b)
    if sa ≠ sb then decide (sa < sb)
    else
      let a_tl := a.ml_direction = "LEFT" && a.is_turning
      let b_tl := b.ml_direction = "LEFT" && b.is_turning
      if a_tl && !b_tl then true
      else if b_tl && !a_tl then false
      else if (a.vx ≠ b.vx ∨ a.vy ≠ b.vy) ∧ a.vx * b.vy - a.vy * b.vx > 0 then
        true
      else if (a.vx ≠ b.vx ∨ a.vy ≠ b.vy) ∧ a.vx * b.vy - a.vy * b.vx < 0 then
        false
      else
        let pa := danger_score a p
        let pb := danger_score b p
        if |pa - pb| > 0.1 then decide (pa < pb)
        else
          let ca := int_center w.network a
          let cb := int_center w.network b
          let dda := R.hypot (a.x - ca.1) (a.y - ca.2)
          let ddb := R.hypot (b.x - cb.1) (b.y - cb.2)
          if |dda - ddb| > 0.1 then decide (dda > ddb)
          else decide (b.id < a.id)

/-- Conflict-detection predicate `World._pair_needs_guard`: current
distance, time-swept projection over 4 sub-steps, and the perpendicular
same-intersection stop-line window; every `hypot` comparison is in exact
squared form. -/
def pair_needs_guard (R : RealOps) (w : World) (targets : List (String × ℚ))
    (dt : ℚ) (a b : Car) : Bool :=
  let p := w.policy
  let safe := pair_safe_distance_m a b p
  if hypot_le (a.x - b.x) (a.y - b.y) safe then true
  else
    let same_int := a.current_int_id = b.current_int_id
    let same_dir := a.vx = b.vx ∧ a.vy = b.vy
    if ¬same_int ∧ ¬same_dir then false
    else if ¬same_int ∧ same_dir
        ∧ !(hypot_le (a.x - b.x) (a.y - b.y) 50.0) then false
    else
      let perp := decide (a.vx ≠ 0) != decide (b.vx ≠ 0)
      let a_sem : Bool := match findNode w.network a.current_int_id with
        | some n => n.has_semaphore
        | none => false
      let b_sem : Bool := match findNode w.network b.current_int_id with
        | some n => n.has_semaphore
        | none => false
      let both_sem := a_sem && b_sem
      let va := max 0.0 (alookupD targets a.id a.speed) / 3.6
      let vb := max 0.0 (alookupD targets b.id b.speed) / 3.6
      let horizon := max dt p.horizon_s
      let step_dt := horizon / 4
      let hit := ([1, 2, 3, 4] : List Nat).any (fun k =>
        let t := step_dt * (k : ℚ)
        hypot_le (a.x + a.vx * va * t - (b.x + b.vx * vb * t))
          (a.y + a.vy * va * t - (b.y + b.vy * vb * t)) safe)
      if !(perp && both_sem) && hit then true
      else if same_int && !(a.passed || b.passed) && !both_sem then
        let da := distance_to_stop_line R p w.network a
        let db := distance_to_stop_line R p w.network b
        if perp && decide (da ≥ 0) && decide (db ≥ 0) then
          let eta_a := if va > 0.5 then da / va else 999.0
          let eta_b := if vb > 0.5 then db / vb else 999.0
          let window := max 2.5 horizon
          decide (eta_a < window) && decide (eta_b < window)
        else false
      else false

/-- Mutable state threaded through `World._apply_collision_guard`. -/
structure GuardState where
  cars : List Car
  targets : List (String × ℚ)
  interventions : Nat

/-- Conditional target write of the guard (`if new_target < current`). -/
def guard_apply_target (st : GuardState) (car_id : String)
    (current new_target : ℚ) : GuardState :=
  if new_target < current then
    { st with
        targets := aset st.targets car_id new_target,
        interventions := st.interventions + 1 }
  else st

/-- One unordered pair of the cross-approach guard sweep (pass 1 of
`World._apply_collision_guard`): skip fully-passed or unguarded pairs, pick
the yielder, and stop / backtrack / ramp / soft-cap it.  The
`_car_in_intersection` calls and the `intersection_backtrack_m` read hit
missing `SafetyPolicy` attributes, hence the `Except`. -/
def guard_pair_step (R : RealOps) (w : World) (dt : ℚ) (st : GuardState)
    (ij : Nat × Nat) : Except String GuardState :=
  let p := w.policy
  let a := st.cars.getD ij.1 junkCar
  let b := st.cars.getD ij.2 junkCar
  if a.passed && b.passed then pure st
  else if !(pair_needs_guard R w st.targets dt a b) then pure st
  else
    let safe := pair_safe_distance_m a b p
    let yielderIsA := pick_yielder_a R w a b
    let y := if yielderIsA then a else b
    let y_idx := if yielderIsA then ij.1 else ij.2
    let current := alookupD st.targets y.id y.cruise_speed
    let dl := distance_to_stop_line R p w.network y
    let y_outside := dl > 0.0 && !y.passed
    if hypot_le (a.x - b.x) (a.y - b.y) (safe * 0.78) then
      Except.bind (car_in_intersection p w.network y) (fun y_in_box =>
        Except.bind
          (if y_in_box && hypot_lt (a.x - b.x) (a.y - b.y) (safe * 0.5) then
            match policy_getattr p "intersection_backtrack_m" with
            | none => .error attrErrBacktrack
            | some bt =>
              pure { y with x := y.x - y.vx * bt, y := y.y - y.vy * bt }
          else pure y)
          (fun y2 =>
            let st2 := { st with cars := st.cars.set y_idx y2 }
            pure (guard_apply_target st2 y2.id current 0.0)))
    else if y_outside && dl < 3.0 then
      pure (guard_apply_target st y.id current 0.0)
    else if y_outside then
      let frac := min 1.0 (dl / p.stop_brake_zone_m)
      pure (guard_apply_target st y.id current
        (min current (frac * y.cruise_speed)))
    else
      let other := if yielderIsA then b else a
      Except.bind (car_in_intersection p w.network y) (fun y_box =>
        Except.bind (car_in_intersection p w.network other) (fun o_box =>
          if y_box && o_box
              && hypot_lt (a.x - b.x) (a.y - b.y) (safe * 1.2) then
            pure (guard_apply_target st y.id current 0.0)
          else
            pure (guard_apply_target st y.id current
              (min current p.collision_guard_soft_speed_kmh))))

/-- The index pairs `i < j` visited by the guard's nested loops. -/
def index_pairs (n : Nat) : List (Nat × Nat) :=
  (List.range n).flatMap (fun i =>
    (List.range' (i + 1) (n - (i + 1))).map (fun j => (i, j)))

/-- Axial following distance `World._following_gap`. -/
def following_gap (leader follower : Car) : ℚ :=
  if leader.vx ≠ 0 then |leader.x - follower.x| else |leader.y - follower.y|

/-- Same-direction lane grouping of pass 2 (a dict keyed by `(vx, vy)` in
first-occurrence order, each group in car order). -/
def lane_groups_add (groups : List ((ℚ × ℚ) × List Car)) (c : Car) :
    List ((ℚ × ℚ) × List Car) :=
  match groups with
  | [] => [((c.vx, c.vy), [c])]
  | e :: rest =>
    if e.1 = (c.vx, c.vy) then (e.1, e.2 ++ [c]) :: rest
    else e :: lane_groups_add rest c

/-- All lane groups of the car list. -/
def lane_groups (cars : List Car) : List ((ℚ × ℚ) × List Car) :=
  cars.foldl lane_groups_add []

/-- Stable insertion used to model Python's stable `list.sort`. -/
def insertStable (le : Car → Car → Bool) (x : Car) : List Car → List Car
  | [] => [x]
  | h :: t => if le h x then h :: insertStable le x t else x :: h :: t

/-- Stable sort used to model Python's stable `list.sort`. -/
def sortStable (le : Car → Car → Bool) (l : List Car) : List Car :=
  l.foldl (fun acc x => insertStable le x acc) []

/-- Direction-dependent ordering of a lane group so the car closest to the
intersection comes first. -/
def sort_group (vx vy : ℚ) (group : List Car) : List Car :=
  if vx > 0 then sortStable (fun c1 c2 => decide (c2.x ≤ c1.x)) group
  else if vx < 0 then sortStable (fun c1 c2 => decide (c1.x ≤ c2.x)) group
  else if vy < 0 then sortStable (fun c1 c2 => decide (c1.y ≤ c2.y)) group
  else if vy > 0 then sortStable (fun c1 c2 => decide (c2.y ≤ c1.y)) group
  else group

/-- Leader/follower walk of one sorted lane group (pass 2 of the guard):
hard stop / half-speed / speed-match bands based on gap versus safe
distance, the leader's effective speed being the minimum of its target and
its actual speed. -/
def follow_go (p : SafetyPolicy) :
    Car → List Car → List (String × ℚ) → Nat → List (String × ℚ) × Nat
  | _, [], targets, cnt => (targets, cnt)
  | leader, follower :: rest, targets, cnt =>
    let gap := following_gap leader follower
    let safe := pair_safe_distance_m leader follower p
    if gap < safe * 1.5 then
      let leader_target := alookupD targets leader.id leader.cruise_speed
      let eff := min leader_target leader.speed
      let fcur := alookupD targets follower.id follower.cruise_speed
      let nt := if gap < safe * 0.8 then 0.0
        else if gap < safe then min fcur (max 0.0 (eff * 0.5))
        else min fcur eff
      if nt < fcur then
        follow_go p follower rest (aset targets follower.id nt) (cnt + 1)
      else follow_go p follower rest targets cnt
    else follow_go p follower rest targets cnt

/-- Pass 2 of the guard over all lane groups. -/
def follow_pass (p : SafetyPolicy) (cars : List Car)
    (targets : List (String × ℚ)) (cnt : Nat) : List (String × ℚ) × Nat :=
  (lane_groups cars).foldl (fun st grp =>
    if grp.2.length < 2 then st
    else
      match sort_group grp.1.1 grp.1.2 grp.2 with
      | [] => st
      | lead :: rest => follow_go p lead rest st.1 st.2) (targets, cnt)

/-- Full collision guard `World._apply_collision_guard`: three sweeps of
the cross-approach pass followed by the following-distance pass, returning
the (possibly backtracked) cars, the adjusted targets, and the
intervention count. -/
def apply_collision_guard (R : RealOps) (w : World)
    (targets : List (String × ℚ)) (dt : ℚ) :
    Except String (List Car × List (String × ℚ) × Nat) :=
  let n := w.cars.length
  if n < 2 then pure (w.cars, targets, 0)
  else
    let pairs := index_pairs n
    let sweep := fun st => pairs.foldlM (guard_pair_step R w dt) st
    let st0 : GuardState :=
      { cars := w.cars, targets := targets, interventions := 0 }
    Except.bind (sweep st0) (fun s1 =>
      Except.bind (sweep s1) (fun s2 =>
        Except.bind (sweep s2) (fun s3 =>
          let f := follow_pass w.policy s3.cars s3.targets s3.interventions
          pure (s3.cars, f.1, f.2))))

/-- Speed integration `World._apply_speed_targets`: asymmetric accel/brake
toward the target with the green-launch boost, the anti-creep snap to zero,
and the wait-time accumulator. -/
def apply_speed_targets (p : SafetyPolicy) (dt : ℚ)
    (targets : List (String × ℚ)) (cars : List Car) : List Car :=
  cars.map (fun car =>
    let target := max 0.0 (alookupD targets car.id car.cruise_speed)
    let accel := if target ≥ car.cruise_speed * 0.8
        ∧ car.speed < p.creep_filter_kmh * 2 then
      p.green_launch_accel_kmh_s else p.max_accel_kmh_s
    let car1 := if car.speed > target then
        { car with speed := max target (car.speed - p.max_brake_kmh_s * dt) }
      else if car.speed < target then
        { car with speed := min target (car.speed + accel * dt) }
      else car
    let car2 := if car1.speed < p.creep_filter_kmh
        ∧ target < p.creep_filter_kmh then
      { car1 with speed := 0.0 } else car1
    if car2.speed < 1.0 then { car2 with wait_s := car2.wait_s + dt }
    else { car2 with wait_s := max 0.0 (car2.wait_s - 0.25 * dt) })

/-- Waypoint-consuming movement loop of `Car._move_along_waypoints`
(`while remaining > 1e-6 and waypoints`). -/
def follow_wps (R : RealOps) : List (ℚ × ℚ) → ℚ → ℚ → ℚ →
    ℚ × ℚ × List (ℚ × ℚ)
  | [], _, x, y => (x, y, [])
  | wp :: rest, remaining, x, y =>
    if !(decide (remaining > 1/1000000)) then (x, y, wp :: rest)
    else
      let dx := wp.1 - x
      let dy := wp.2 - y
      let dist := R.hypot dx dy
      if dist < 1/1000000 then follow_wps R rest remaining x y
      else if remaining ≥ dist then
        follow_wps R rest (remaining - dist) wp.1 wp.2
      else (x + dx * (remaining / dist), y + dy * (remaining / dist),
        wp :: rest)

/-- Waypoint steering of `Car._move_along_waypoints`: consume path length,
then recompute the heading toward the next waypoint, or snap to the nearest
cardinal once all waypoints are done and the car has turned. -/
def move_along_waypoints (R : RealOps) (c : Car) (speed_mps dt : ℚ) : Car :=
  let r := follow_wps R c.turn_waypoints (speed_mps * dt) c.x c.y
  let c1 := { c with x := r.1, y := r.2.1, turn_waypoints := r.2.2 }
  match c1.turn_waypoints with
  | wp :: _ =>
    let dx := wp.1 - c1.x
    let dy := wp.2 - c1.y
    let d := R.hypot dx dy
    if d > 1/1000000 then { c1 with vx := dx / d, vy := dy / d } else c1
  | [] =>
    if c1.has_turned then
      if |c1.vx| ≥ |c1.vy| then
        { c1 with vx := if c1.vx > 0 then 1.0 else -1.0, vy := 0.0 }
      else
        { c1 with vy := if c1.vy > 0 then 1.0 else -1.0, vx := 0.0 }
    else c1

/-- Per-tick movement `Car.move`: no-op when stopped, waypoint steering
while turning, straight-line integration otherwise. -/
def Car.move (R : RealOps) (dt : ℚ) (c : Car) : Car :=
  if c.stopped then c
  else
    let speed_mps := c.speed / 3.6
    if !c.turn_waypoints.isEmpty then move_along_waypoints R c speed_mps dt
    else
      { c with
          x := c.x + c.vx * speed_mps * dt,
          y := c.y + c.vy * speed_mps * dt }

/-- Turn assignment `World._apply_turns`: a LEFT/RIGHT car inside its
trigger distance receives the centre-offset waypoint table and is flagged
`has_turned`. -/
def apply_turns (R : RealOps) (net : RoadNetwork) (cars : List Car) :
    List Car :=
  cars.map (fun car =>
    if car.has_turned || car.is_turning
        || (car.ml_direction == "FORWARD") then car
    else
      match R.turn_wps car.approach car.ml_direction with
      | none => car
      | some wps =>
        let trigger := turn_trigger car.ml_direction
        let dist := distance_to_center R net car
        if dist > trigger then car
        else
          let c0 := int_center net car
          { car with
              turn_waypoints := wps.map (fun wp => (wp.1 + c0.1, wp.2 + c0.2)),
              has_turned := true })

/-- Exit arm from the velocity vector (`World._exit_arm`). -/
def exit_arm (c : Car) : Option String :=
  if c.vx > 0.5 then some "E"
  else if c.vx < -0.5 then some "W"
  else if c.vy > 0.5 then some "N"
  else if c.vy < -0.5 then some "S"
  else none

/-- Next intersection after a pass (`World._next_intersection_for`). -/
def next_intersection_for (net : RoadNetwork) (c : Car) :
    Option IntersectionNode := do
  let ea ← exit_arm c
  let conn ← connected_arm net c.current_int_id ea
  findNode net conn.1

/-- Arrival arm at the connected intersection (`World._arrival_arm`; its
`target_node` parameter is unused in the source). -/
def arrival_arm (net : RoadNetwork) (c : Car) : Option String := do
  let ea ← exit_arm c
  let conn ← connected_arm net c.current_int_id ea
  pure conn.2

/-- Per-car pass-through / transition step of `World.update_physics`
(stage 7): a car beyond the pass threshold and not mid-turn either
transitions to the connected intersection (resetting its per-intersection
state and drawing a fresh manoeuvre) or is marked passed; a passed car's
leftover waypoints are cleared with a cardinal velocity snap.  The source
sets `car.current_int_id = next_int.id` BEFORE calling `_arrival_arm`, so
the approach update reads the connection out of the NEW intersection in
the travel direction (and leaves `approach` unchanged when that lookup
fails or yields an empty arm). -/
def pass_transition_car (g : Nat → Nat) (p : SafetyPolicy)
    (net : RoadNetwork) (car : Car) (pos : Nat) : Car × Nat :=
  let c0 := int_center net car
  let actually_passed := car.has_passed p.pass_threshold_m c0.1 c0.2
  let r1 : Car × Nat :=
    if !car.passed && !car.is_turning && actually_passed then
      match next_intersection_for net car with
      | some nxt =>
        let car1 := { car with current_int_id := nxt.id }
        let car2 := match arrival_arm net car1 with
          | some s => if s ≠ "" then { car1 with approach := s } else car1
          | none => car1
        ({ car2 with
            has_turned := false, stop_completed := false, stop_wait_s := 0.0,
            ml_direction := (mlDirectionsList[choiceIdx g pos 3]?).getD
              "FORWARD" },
          pos + 1)
      | none => ({ car with passed := true }, pos)
    else (car, pos)
  let car3 := r1.1
  if car3.passed && !car3.turn_waypoints.isEmpty then
    let car4 : Car := { car3 with turn_waypoints := [] }
    if |car4.vx| ≥ |car4.vy| then
      ({ car4 with vx := if car4.vx > 0 then 1.0 else -1.0, vy := 0.0 }, r1.2)
    else
      ({ car4 with vy := if car4.vy > 0 then 1.0 else -1.0, vx := 0.0 }, r1.2)
  else (car3, r1.2)

/-- Stage 7 over the whole car list, threading the random stream cursor. -/
def pass_transitions (g : Nat → Nat) (p : SafetyPolicy) (net : RoadNetwork) :
    List Car → Nat → List Car × Nat
  | [], pos => ([], pos)
  | c :: rest, pos =>
    let r := pass_transition_car g p net c pos
    let rr := pass_transitions g p net rest r.2
    (r.1 :: rr.1, rr.2)

/-- Mutable state of `World._resolve_overlaps`. -/
structure OverlapState where
  cars : List Car
  count : Nat
  changed : Bool

/-- One unordered pair of the overlap resolver: push apart any two cars
closer than the fixed hard radius (`min_pair_distance_m`) and cap the
faster one's speed to the slower one's with a 3 km/h floor. -/
def overlap_pair_step (R : RealOps) (p : SafetyPolicy) (st : OverlapState)
    (ij : Nat × Nat) : OverlapState :=
  let a := st.cars.getD ij.1 junkCar
  let b := st.cars.getD ij.2 junkCar
  let dx := a.x - b.x
  let dy := a.y - b.y
  let hard := p.min_pair_distance_m
  if !(hypot_lt dx dy hard) then st
  else
    let ab : Car × Car :=
      if hypot_lt dx dy (1/1000000) then
        (a, { b with x := b.x + 0.5, y := b.y + 0.5 })
      else
        let dist := R.hypot dx dy
        let overlap := (hard - dist) / 2.0
        let ux := dx / dist
        let uy := dy / dist
        ({ a with x := a.x + ux * overlap, y := a.y + uy * overlap },
         { b with x := b.x - ux * overlap, y := b.y - uy * overlap })
    let ab2 : Car × Car :=
      if ab.1.speed > ab.2.speed then
        ({ ab.1 with speed := min ab.1.speed (max ab.2.speed 3.0) }, ab.2)
      else
        (ab.1, { ab.2 with speed := min ab.2.speed (max ab.1.speed 3.0) })
    { cars := (st.cars.set ij.1 ab2.1).set ij.2 ab2.2
      count := st.count + 1
      changed := true }

/-- Bounded passes of `World._resolve_overlaps` with the early exit when a
pass changes nothing. -/
def resolve_overlaps_go (R : RealOps) (p : SafetyPolicy)
    (pairs : List (Nat × Nat)) : Nat → List Car → Nat → List Car × Nat
  | 0, cars, cnt => (cars, cnt)
  | fuel + 1, cars, cnt =>
    let st := pairs.foldl (overlap_pair_step R p)
      { cars := cars, count := cnt, changed := false }
    if st.changed then resolve_overlaps_go R p pairs fuel st.cars st.count
    else (st.cars, st.count)

/-- Last-resort overlap resolver `World._resolve_overlaps`. -/
def resolve_overlaps (R : RealOps) (p : SafetyPolicy) (cars : List Car) :
    List Car × Nat :=
  resolve_overlaps_go R p (index_pairs cars.length) 3 cars 0

/-- Finish detection of `World.update_physics` (its final statement): the
World is flagged finished once every car is `passed`. -/
def finish_step (w : World) : World :=
  if w.cars.all (fun c => c.passed) then { w with finished := true } else w

/-- Stages 4–9 of `World.update_physics` (everything after the signal and
semaphore updates): decision-to-target synthesis, optional collision guard,
speed integration, movement, turn assignment, pass/transition bookkeeping,
optional overlap resolution, and finish detection. -/
def tick_core (R : RealOps) (g : Nat → Nat)
    (decisions : String → Option DecisionMsg) (dt : ℚ) (w2 : World) :
    Except String World :=
  Except.bind (build_targets_go R w2 decisions dt w2.cars [])
    (fun bt =>
      let w3 := { w2 with cars := bt.1 }
      Except.bind
        (if w3.policy.world_collision_guard_enabled then
          apply_collision_guard R w3 bt.2 dt
        else pure (w3.cars, bt.2, 0))
        (fun gr =>
          let w4 := { w3 with
            cars := gr.1,
            safety_interventions := w3.safety_interventions + gr.2.2 }
          let cars2 := apply_speed_targets w4.policy dt gr.2.1 w4.cars
          let cars3 := cars2.map (Car.move R dt)
          let cars4 := apply_turns R w4.network cars3
          let pt := pass_transitions g w4.policy w4.network cars4 w4.rng_pos
          let w5 := { w4 with cars := pt.1, rng_pos := pt.2 }
          let w6 := if w5.policy.world_overlap_resolver_enabled then
              let ro := resolve_overlaps R w5.policy w5.cars
              { w5 with
                  cars := ro.1,
                  collision_resolutions := w5.collision_resolutions + ro.2 }
            else w5
          pure (finish_step w6)))

/-- Full tick `World.update_physics(dt, decisions)`: tick counter, optional
virtual signal, semaphores, then `tick_core`.  Exceptions raised by the
source (in particular the `AttributeError` of the missing
`intersection_box_half_m`) are `Except.error`. -/
def update_physics (R : RealOps) (g : Nat → Nat) (w : World) (dt : ℚ)
    (decisions : String → Option DecisionMsg) : Except String World :=
  let w0 := { w with tick_count := w.tick_count + 1 }
  match (if w0.policy.world_signal_scheduler_enabled then
      update_virtual_signal w0 dt
    else pure w0) with
  | .error e => .error e
  | .ok w1 =>
    let w2 := if w1.policy.semaphore_enabled then update_semaphore w1 dt
      else w1
    tick_core R g decisions dt w2

/-- Repeated ticks driven by a `(dt, decisions)` sequence, recording the
state (or the raised exception) after each call; once a tick raises, the
driver can only re-observe the error. -/
def run_ticks (R : RealOps) (g : Nat → Nat) :
    Except String World → List (ℚ × (String → Option DecisionMsg)) →
    List (Except String World)
  | _, [] => []
  | .error e, _ :: rest => .error e :: run_ticks R g (.error e) rest
  | .ok w, step :: rest =>
    let r := update_physics R g w step.1 step.2
    r :: run_ticks R g r rest

/-! ## General lemmas about the embedded operations -/

/-- The numeric-attribute lookup on the frozen `SafetyPolicy` dataclass has
no `intersection_box_half_m` entry, for every policy value. -/
theorem policy_getattr_box_half (p : SafetyPolicy) :
    policy_getattr p "intersection_box_half_m" = none := rfl

/-- The per-car target-speed computation always raises the
`intersection_box_half_m` `AttributeError` (the intersection-box speed cap
runs for every car, and `_car_in_intersection` is evaluated first). -/
theorem build_target_for_car_err (R : RealOps) (w : World)
    (payload : DecisionMsg) (dt : ℚ) (car : Car) :
    build_target_for_car R w payload dt car = .error attrErrBoxHalf := rfl

/-- `_build_target_speeds` raises on any non-empty car list. -/
theorem build_targets_go_err (R : RealOps) (w : World)
    (decisions : String → Option DecisionMsg) (dt : ℚ) (c : Car)
    (cs : List Car) (acc : List (String × ℚ)) :
    build_targets_go R w decisions dt (c :: cs) acc =
      .error attrErrBoxHalf := rfl

/-- The post-signal part of a tick raises whenever the world has at least
one car. -/
theorem tick_core_err (R : RealOps) (g : Nat → Nat)
    (dec : String → Option DecisionMsg) (dt : ℚ) (w2 : World)
    (h : w2.cars ≠ []) : tick_core R g dec dt w2 = .error attrErrBoxHalf := by
  obtain ⟨c, cs, hc⟩ := List.exists_cons_of_ne_nil h
  unfold tick_core
  rw [hc, build_targets_go_err]
  rfl

/-- The semaphore update does not touch the car list. -/
theorem update_semaphore_cars (w : World) (dt : ℚ) :
    (update_semaphore w dt).cars = w.cars := by
  cases h : (w.network.nodes.map (sem_step_node w.policy dt)).find?
      (fun n => n.has_semaphore) <;>
    simp [update_semaphore, h]

/-- Membership in the terminal-arm list guarantees the intersection id
resolves and the arm is one of the four cardinal arms. -/
theorem mem_terminal_arms_spec (net : RoadNetwork) (i a : String)
    (h : (i, a) ∈ terminal_arms net) :
    (findNode net i).isSome = true
      ∧ (arm_direction_vector a).isSome = true := by
  unfold terminal_arms at h
  rw [List.mem_flatMap] at h
  obtain ⟨n, hn, hmem⟩ := h
  rw [List.mem_map] at hmem
  obtain ⟨arm, harm, heq⟩ := hmem
  injection heq with hi ha
  subst hi
  subst ha
  constructor
  · unfold findNode
    rw [List.find?_isSome]
    exact ⟨n, hn, by simp⟩
  · have hin : arm ∈ ["N", "S", "E", "W"] := List.mem_of_mem_filter harm
    simp only [List.mem_cons, List.not_mem_nil, or_false] at hin
    rcases hin with rfl | rfl | rfl | rfl <;> rfl

/-- Spawn-position computation succeeds for a resolvable id and cardinal
arm. -/
theorem arm_spawn_position_isSome (net : RoadNetwork) (i a : String)
    (d l : ℚ) (h1 : (findNode net i).isSome = true)
    (h2 : (arm_direction_vector a).isSome = true) :
    (arm_spawn_position net i a d l).isSome = true := by
  obtain ⟨node, hn⟩ := Option.isSome_iff_exists.mp h1
  obtain ⟨v, hv⟩ := Option.isSome_iff_exists.mp h2
  unfold arm_spawn_position
  rw [hn]
  simp only [Option.bind_some, hv]
  split <;> rfl

/-- Indexing a non-empty list modulo its length always succeeds and yields
a member. -/
theorem getElem?_mod_isSome {α : Type} (l : List α) (h : l ≠ []) (k : Nat) :
    ∃ x, l[k % l.length]? = some x ∧ x ∈ l := by
  have hl : 0 < l.length := List.length_pos.mpr h
  have hk : k % l.length < l.length := Nat.mod_lt _ hl
  exact ⟨l[k % l.length], List.getElem?_eq_getElem hk, List.getElem_mem hk⟩

/-- The bounded placement loop never raises when started from a terminal
arm. -/
theorem spawn_attempt_loop_isSome (g : Nat → Nat) (p : SafetyPolicy)
    (net : RoadNetwork) (placed : List Car) :
    ∀ (fuel : Nat) (i a : String) (pos : Nat), (i, a) ∈ terminal_arms net →
    (spawn_attempt_loop g p net placed fuel i a pos).isSome = true := by
  intro fuel
  induction fuel with
  | zero => intro i a pos _; rfl
  | succ f ih =>
    intro i a pos h
    obtain ⟨h1, h2⟩ := mem_terminal_arms_spec net i a h
    obtain ⟨cand, hcand⟩ := Option.isSome_iff_exists.mp
      (arm_spawn_position_isSome net i a
        (uniformDraw g pos p.spawn_min_radius_m p.spawn_max_radius_m)
        p.lane_offset_m h1 h2)
    unfold spawn_attempt_loop
    dsimp only
    rw [hcand]
    simp only [Option.bind_eq_bind, Option.some_bind]
    by_cases hc : spawn_is_clear p placed cand.1 cand.2.1
    · simp [hc]
    · simp only [hc, Bool.false_eq_true, if_false]
      obtain ⟨nx, hnx, hmem⟩ := getElem?_mod_isSome (terminal_arms net)
        (List.ne_nil_of_mem h) (g (pos + 1))
      rw [show choiceIdx g (pos + 1) (terminal_arms net).length =
        g (pos + 1) % (terminal_arms net).length from rfl, hnx]
      simp only [Option.bind_eq_bind, Option.some_bind]
      exact ih nx.1 nx.2 (pos + 2) hmem

/-- Spawning one car never raises when the network has a terminal arm. -/
theorem make_random_car_isSome (g : Nat → Nat) (p : SafetyPolicy)
    (net : RoadNetwork) (placed : List Car) (idx pos : Nat)
    (h : terminal_arms net ≠ []) :
    (make_random_car g p net placed idx pos).isSome = true := by
  obtain ⟨arm0, h0, hm0⟩ := getElem?_mod_isSome (terminal_arms net) h (g pos)
  unfold make_random_car
  dsimp only
  rw [show choiceIdx g pos (terminal_arms net).length =
    g pos % (terminal_arms net).length from rfl, h0]
  simp only [Option.bind_eq_bind, Option.some_bind]
  obtain ⟨res, hres⟩ := Option.isSome_iff_exists.mp
    (spawn_attempt_loop_isSome g p net placed p.spawn_max_attempts
      arm0.1 arm0.2 (pos + 4) hm0)
  rw [hres]
  simp only [Option.bind_eq_bind, Option.some_bind]
  cases hres1 : res.1 with
  | some val => rfl
  | none =>
    obtain ⟨fb, hfb, hfbm⟩ := getElem?_mod_isSome (terminal_arms net) h idx
    rw [hfb]
    simp only [Option.bind_eq_bind, Option.some_bind]
    obtain ⟨hf1, hf2⟩ := mem_terminal_arms_spec net fb.1 fb.2 hfbm
    obtain ⟨cand2, hcand2⟩ := Option.isSome_iff_exists.mp
      (arm_spawn_position_isSome net fb.1 fb.2
        (p.spawn_min_radius_m + (idx : ℚ) * 10.0) p.lane_offset_m hf1 hf2)
    rw [hcand2]
    rfl

/-- The spawn loop of `_init_cars` succeeds and appends exactly one car per
index. -/
theorem spawn_cars_go_spec (g : Nat → Nat) (p : SafetyPolicy)
    (net : RoadNetwork) (h : terminal_arms net ≠ []) :
    ∀ (remaining idx pos : Nat) (acc : List Car),
    ∃ cars pos2, spawn_cars_go g p net remaining idx pos acc =
        some (cars, pos2)
      ∧ cars.length = acc.length + remaining := by
  intro remaining
  induction remaining with
  | zero => intro idx pos acc; exact ⟨acc, pos, rfl, by simp⟩
  | succ r ih =>
    intro idx pos acc
    obtain ⟨c, hc⟩ := Option.isSome_iff_exists.mp
      (make_random_car_isSome g p net acc idx pos h)
    obtain ⟨cars, pos2, hgo, hlen⟩ := ih (idx + 1) c.2 (acc ++ [c.1])
    refine ⟨cars, pos2, ?_, ?_⟩
    · unfold spawn_cars_go
      rw [hc]
      simpa only [Option.bind_eq_bind, Option.some_bind] using hgo
    · rw [hlen]
      simp only [List.length_append, List.length_cons, List.length_nil]
      omega

/-- Construction succeeds with `max(1, num_cars)` cars whenever the network
has a terminal arm. -/
theorem mkWorld_spec (g : Nat → Nat) (n : ℤ) (p : SafetyPolicy)
    (pa : String) (net : RoadNetwork) (h : terminal_arms net ≠ []) :
    ∃ w, mkWorld g n p pa net = some w
      ∧ w.cars.length = (max 1 n).toNat
      ∧ w.num_cars = (max 1 n).toNat := by
  obtain ⟨cars, pos2, hgo, hlen⟩ := spawn_cars_go_spec g p net h
    ((max 1 n).toNat) 0 0 []
  unfold mkWorld
  dsimp only
  rw [hgo]
  simp only [Option.bind_eq_bind, Option.some_bind]
  exact ⟨_, rfl, by simpa using hlen, rfl⟩

/-- Inversion of a successful construction: the stored fields in terms of
the constructor arguments. -/
theorem mkWorld_inv (g : Nat → Nat) (n : ℤ) (p : SafetyPolicy) (pa : String)
    (net : RoadNetwork) (w : World) (h : mkWorld g n p pa net = some w) :
    w.network = { net with nodes := init_sem_nodes p net.nodes 0.0 }
      ∧ w.policy = p
      ∧ w.num_cars = (max 1 n).toNat
      ∧ spawn_cars_go g p net ((max 1 n).toNat) 0 0 [] =
          some (w.cars, w.rng_pos) := by
  unfold mkWorld at h
  dsimp only at h
  cases hsp : spawn_cars_go g p net ((max 1 n).toNat) 0 0 [] with
  | none => rw [hsp] at h; cases h
  | some sp =>
    rw [hsp] at h
    simp only [Option.bind_eq_bind, Option.some_bind, Option.some.injEq] at h
    subst h
    exact ⟨rfl, rfl, rfl, rfl⟩

/-! ## Concrete fixtures -/

/-- A concrete pseudo-random stream (the identity sequence). -/
def gId : Nat → Nat := id

/-- A concrete instantiation of the abstracted irrational-valued helpers,
used only to evaluate code paths that never consult them. -/
def zeroOps : RealOps := { hypot := fun _ _ => 0, turn_wps := fun _ _ => none }

/-- Single sign-controlled intersection with four terminal arms. -/
def netA : RoadNetwork :=
  { nodes := [mkIntersectionNode "INT_A" 0 0 false "EW"], roads := [] }

/-- Two disconnected intersections: one semaphore-controlled, one
sign-controlled. -/
def netB : RoadNetwork :=
  { nodes := [mkIntersectionNode "INT_S" 0 0 true "EW",
              mkIntersectionNode "INT_P" 150 0 false "NS"],
    roads := [] }

/-- Two intersections joined by one road: the east arm of `INT_A` meets the
west arm of `INT_B`. -/
def netC : RoadNetwork :=
  { nodes := [mkIntersectionNode "INT_A" 0 0 false "EW",
              mkIntersectionNode "INT_B" 150 0 true "NS"],
    roads := [{ from_id := "INT_A", from_arm := "E",
                to_id := "INT_B", to_arm := "W" }] }

/-- A concrete westbound-spawned car approaching `INT_A`. -/
def carW : Car :=
  { id := "CAR_000", x := -40, y := -7, speed := 36, ml_direction := "FORWARD",
    approach := "W", cruise_speed := 36, vx := 1, vy := 0,
    current_int_id := "INT_A" }

/-- A concrete world state over `netA` holding `carW` (the shape
`World.__init__` produces, with the car list pinned). -/
def worldA : World :=
  { policy := defaultPolicy,
    priority_axis := "EW",
    network := { netA with nodes := init_sem_nodes defaultPolicy netA.nodes 0.0 },
    signs := [("INT_A", build_signs_by_approach "EW")],
    signs_by_approach := build_signs_by_approach "EW",
    current_sign := "YIELD",
    num_cars := 1,
    rng_pos := 5,
    cars := [carW],
    safety_interventions := 0,
    collision_resolutions := 0,
    green_approach := "W",
    green_ttl_s := 0.0,
    tick_count := 0,
    sem_green_axis_legacy := "EW",
    sem_phase_legacy := "GREEN",
    sem_timer_legacy := 8.0,
    finished := false }

/-! ## Claim C1 -/

/-- C1: the claim states that `update_physics` completes every tick without
raising during normal operation.  The code disagrees: for every world with
at least one car (and the default scheduler-off policy), the tick raises the
`AttributeError` for the missing `SafetyPolicy.intersection_box_half_m`
attribute inside the intersection-box speed-cap step, on the very first
car. -/
theorem c1_update_physics_always_raises (R : RealOps) (g : Nat → Nat)
    (w : World) (dt : ℚ) (dec : String → Option DecisionMsg)
    (hcars : w.cars ≠ [])
    (hsched : w.policy.world_signal_scheduler_enabled = false) :
    update_physics R g w dt dec = .error attrErrBoxHalf := by
  unfold update_physics
  simp only [hsched, Bool.false_eq_true, if_false]
  apply tick_core_err
  by_cases hsem : w.policy.semaphore_enabled <;>
    simp [hsem, update_semaphore_cars, hcars]

/-- Witness for C1 at a concrete world: one default-policy tick on `worldA`
raises the `intersection_box_half_m` `AttributeError`. -/
theorem c1_witness :
    update_physics zeroOps gId worldA (1/10) (fun _ => none) =
      .error attrErrBoxHalf :=
  c1_update_physics_always_raises zeroOps gId worldA (1/10) (fun _ => none)
    (by decide) rfl

/-! ## Claim C2 -/

/-- A car that has fully halted (`stopped = true`) without having cleared
its intersection (`passed = false`). -/
def stoppedCar : Car :=
  { id := "CAR_000", x := 0, y := -7, speed := 0, ml_direction := "FORWARD",
    approach := "W", cruise_speed := 36, vx := 1, vy := 0,
    current_int_id := "INT_A", passed := false, stopped := true }

/-- The world `worldA` with its single car replaced by `stoppedCar`. -/
def worldStopped : World := { worldA with cars := [stoppedCar] }

/-- C2 counterexample: a world whose single car is `stopped` but not
`passed` is NOT marked finished by the finish-detection step of
`update_physics` (lines 525–527 of `sim/world.py`), refuting the claim that
a tick in which every car has `stopped = true` marks the World finished. -/
theorem c2_counterexample :
    (worldStopped.cars.all (fun c => c.stopped)) = true
      ∧ is_finished (finish_step worldStopped) = false := by
  constructor <;> rfl

/-- C2 (amended): the finish-detection step of `update_physics` is driven
by the cars' `passed` flags, not their `stopped` flags: after the step the
World is finished exactly when it already was or every car has
`passed = true`. -/
theorem c2_finish_driven_by_passed (w : World) :
    is_finished (finish_step w) =
      (w.finished || w.cars.all (fun c => c.passed)) := by
  unfold finish_step is_finished
  split <;> simp_all

/-! ## Claim C3 -/

/-- C3: two `World` instances constructed with identical
`(numCars, seed, policy, network)` arguments (the seed represented by its
pseudo-random stream) are equal as states, and driving them with the same
`(dt, decisions)` sequence produces identical per-tick trajectories —
every car's position, speed, heading and flags agree at every tick.  All
randomness is drawn from the explicitly seeded per-World generator, so the
embedding carries no hidden state. -/
theorem c3_deterministic_replay (R : RealOps) (g : Nat → Nat) (n : ℤ)
    (p : SafetyPolicy) (pa : String) (net : RoadNetwork)
    (seq : List (ℚ × (String → Option DecisionMsg))) (w1 w2 : World)
    (h1 : mkWorld g n p pa net = some w1)
    (h2 : mkWorld g n p pa net = some w2) :
    w1.cars = w2.cars
      ∧ run_ticks R g (.ok w1) seq = run_ticks R g (.ok w2) seq := by
  rw [h1] at h2
  injection h2 with h2
  subst h2
  exact ⟨rfl, rfl⟩

/-- The concrete World produced by constructing over `netA` with the
identity stream (used to witness C3). -/
def worldSeedA : World :=
  (mkWorld gId 1 defaultPolicy "EW" netA).getD worldA

/-- Witness for C3 at a concrete construction: the two equally-constructed
instances coincide and replay identically for one tick. -/
theorem c3_witness :
    worldSeedA.cars = worldSeedA.cars
      ∧ run_ticks zeroOps gId (.ok worldSeedA) [((1:ℚ)/10, fun _ => none)] =
        run_ticks zeroOps gId (.ok worldSeedA) [((1:ℚ)/10, fun _ => none)] :=
  c3_deterministic_replay zeroOps gId 1 defaultPolicy "EW" netA
    [((1:ℚ)/10, fun _ => none)] worldSeedA worldSeedA rfl rfl

/-! ## Claim C5 -/

/-- C5 counterexample: the claim promises exactly `numCars` vehicles for
every constructor input, but constructing with `num_cars = 0` yields one
car, because the source clamps with `max(1, int(num_cars))`. -/
theorem c5_counterexample :
    Option.map (fun w => w.cars.length)
      (mkWorld gId 0 defaultPolicy "EW" netA) = some 1 ∧ (1 : ℕ) ≠ 0 := by
  constructor
  · rfl
  · decide

/-- C5 (amended): for every constructor input over a network with at least
one terminal arm, `World` construction never fails — the bounded attempt
budget falls back to the deterministic radial placement indexed over
terminal arms — and the resulting World contains exactly
`max(1, int(numCars))` cars. -/
theorem c5_construction_total (g : Nat → Nat) (n : ℤ) (p : SafetyPolicy)
    (pa : String) (net : RoadNetwork) (h : terminal_arms net ≠ []) :
    ∃ w, mkWorld g n p pa net = some w
      ∧ w.cars.length = (max 1 n).toNat := by
  obtain ⟨w, hw, hlen, _⟩ := mkWorld_spec g n p pa net h
  exact ⟨w, hw, hlen⟩

/-- Witness for C5 at a concrete input: three cars over `netA`. -/
theorem c5_witness :
    ∃ w, mkWorld gId 3 defaultPolicy "EW" netA = some w
      ∧ w.cars.length = (max 1 (3:ℤ)).toNat :=
  c5_construction_total gId 3 defaultPolicy "EW" netA (by decide)

/-! ## Claim C10 -/

/-- C10: for every integer `num_cars ≤ 0`, the constructed World contains
exactly one car — the spawned count is `max(1, int(num_cars))` — so the car
list is never empty. -/
theorem c10_num_cars_clamped (g : Nat → Nat) (n : ℤ) (p : SafetyPolicy)
    (pa : String) (net : RoadNetwork) (h1 : terminal_arms net ≠ [])
    (h2 : n ≤ 0) :
    ∃ w, mkWorld g n p pa net = some w ∧ w.cars.length = 1
      ∧ w.num_cars = (max 1 n).toNat ∧ w.cars ≠ [] := by
  obtain ⟨w, hw, hlen, hnum⟩ := mkWorld_spec g n p pa net h1
  have hmax : (max 1 n).toNat = 1 := by omega
  refine ⟨w, hw, ?_, hnum, ?_⟩
  · rw [hlen, hmax]
  · intro hnil
    rw [hnil] at hlen
    rw [hmax] at hlen
    exact absurd hlen (by decide)

/-- Witness for C10 at a concrete input: `num_cars = -2` over `netA`. -/
theorem c10_witness :
    ∃ w, mkWorld gId (-2) defaultPolicy "EW" netA = some w
      ∧ w.cars.length = 1 ∧ w.num_cars = (max 1 (-2:ℤ)).toNat
      ∧ w.cars ≠ [] :=
  c10_num_cars_clamped gId (-2) defaultPolicy "EW" netA (by decide) (by decide)

/-! ## Claim C4 -/

/-- C4: the claim (and the repository's own test file) requires
`car.priority == (role ∈ {ambulance, police, fire})`, but the `Car`
dataclass of `sim/world.py` declares no `priority` attribute at all —
reading it raises `AttributeError` — while `role` and the other flags do
exist. -/
theorem c4_car_has_no_priority_attribute :
    carHasAttr "priority" = false ∧ carHasAttr "role" = true
      ∧ carHasAttr "stopped" = true ∧ carHasAttr "passed" = true := by
  decide

/-! ## Claim C9 -/

/-- C9: the sign table derived from a priority axis assigns, for axis EW:
PRIORITY to E and W, STOP to N, YIELD to S; and for axis NS: PRIORITY to N
and S, STOP to E, YIELD to W. -/
theorem c9_sign_layout :
    alookupD (build_signs_by_approach "EW") "E" "NO_SIGN" = "PRIORITY"
      ∧ alookupD (build_signs_by_approach "EW") "W" "NO_SIGN" = "PRIORITY"
      ∧ alookupD (build_signs_by_approach "EW") "N" "NO_SIGN" = "STOP"
      ∧ alookupD (build_signs_by_approach "EW") "S" "NO_SIGN" = "YIELD"
      ∧ alookupD (build_signs_by_approach "NS") "N" "NO_SIGN" = "PRIORITY"
      ∧ alookupD (build_signs_by_approach "NS") "S" "NO_SIGN" = "PRIORITY"
      ∧ alookupD (build_signs_by_approach "NS") "E" "NO_SIGN" = "STOP"
      ∧ alookupD (build_signs_by_approach "NS") "W" "NO_SIGN" = "YIELD" := by
  decide

/-! ## Claim C7 -/

/-- Node-level invariant of claim C7: on semaphore nodes with a legal
priority axis, the green axis is legal. -/
def sem_axis_ok (node : IntersectionNode) : Prop :=
  node.has_semaphore = true →
  (node.priority_axis = "EW" ∨ node.priority_axis = "NS") →
  (node.sem_green_axis = "EW" ∨ node.sem_green_axis = "NS")

/-- The staggered semaphore initialisation establishes the invariant. -/
theorem sem_axis_ok_init (p : SafetyPolicy) :
    ∀ (l : List IntersectionNode) (off : ℚ) (node : IntersectionNode),
    node ∈ init_sem_nodes p l off → sem_axis_ok node := by
  intro l
  induction l with
  | nil => intro off node h _ _; cases h
  | cons hd tl ih =>
    intro off node h hsem hpa
    unfold init_sem_nodes at h
    by_cases hh : hd.has_semaphore
    · simp only [hh, Bool.not_true, Bool.false_eq_true, if_false, if_true,
        List.mem_cons] at h
      rcases h with rfl | h
      · exact hpa
      · exact ih _ node h hsem hpa
    · simp only [hh, Bool.not_false, Bool.false_eq_true, if_false, if_true,
        List.mem_cons] at h
      rcases h with rfl | h
      · cases hsem
      · exact ih _ node h hsem hpa

/-- One step of the fixed-cycle state machine preserves the invariant: the
axis is either left alone or flipped to `"NS"`/`"EW"`. -/
theorem sem_axis_ok_step (p : SafetyPolicy) (dt : ℚ)
    (node : IntersectionNode) (h : sem_axis_ok node) :
    sem_axis_ok (sem_step_node p dt node) := by
  unfold sem_step_node
  by_cases hs : node.has_semaphore
  · simp only [hs, Bool.not_true, Bool.false_eq_true, if_false]
    split
    · intro _ hpa
      exact h hs hpa
    · split
      · intro _ hpa
        exact h hs hpa
      · split
        · intro _ hpa
          exact h hs hpa
        · intro _ _
          by_cases hax : node.sem_green_axis = "EW" <;> simp [hax]
  · simp only [hs, Bool.not_false, if_true]
    exact h

/-- The per-tick semaphore update maps `sem_step_node` over the nodes. -/
theorem update_semaphore_nodes (w : World) (dt : ℚ) :
    (update_semaphore w dt).network.nodes =
      w.network.nodes.map (sem_step_node w.policy dt) := by
  cases h : (w.network.nodes.map (sem_step_node w.policy dt)).find?
      (fun n => n.has_semaphore) <;>
    simp [update_semaphore, h]

/-- Any sequence of semaphore updates preserves the invariant on every
node. -/
theorem sem_axis_ok_foldl (dts : List ℚ) :
    ∀ (w : World),
    (∀ node ∈ w.network.nodes, sem_axis_ok node) →
    ∀ node ∈ (dts.foldl update_semaphore w).network.nodes,
      sem_axis_ok node := by
  induction dts with
  | nil => intro w h node hn; exact h node hn
  | cons dt rest ih =>
    intro w h node hn
    refine ih (update_semaphore w dt) ?_ node hn
    intro nd hnd
    rw [update_semaphore_nodes] at hnd
    obtain ⟨nd0, hnd0, rfl⟩ := List.mem_map.mp hnd
    exact sem_axis_ok_step _ _ _ (h nd0 hnd0)

/-- Inversion of a successful `reset`: the node list is re-initialised from
the World's current nodes. -/
theorem resetWorld_inv (g : Nat → Nat) (w0 w : World)
    (h : resetWorld g w0 = some w) :
    w.network.nodes = init_sem_nodes w0.policy w0.network.nodes 0.0 := by
  unfold resetWorld at h
  cases hsp : spawn_cars_go g w0.policy w0.network w0.num_cars 0 w0.rng_pos []
    with
  | none => rw [hsp] at h; cases h
  | some sp =>
    rw [hsp] at h
    simp only [Option.bind_eq_bind, Option.some_bind, Option.some.injEq] at h
    subst h
    rfl

/-- C7 counterexample: `World` construction over a network containing a
sign-only intersection clears that node's `sem_green_axis` to the empty
string, which is neither `"EW"` nor `"NS"` — refuting the claim that the
invariant holds for every `IntersectionNode` after construction. -/
theorem c7_counterexample :
    Option.map (fun w => w.network.nodes.map (fun nd => nd.sem_green_axis))
        (mkWorld gId 1 defaultPolicy "EW" netB) = some ["EW", ""]
      ∧ ¬ ("" = "EW" ∨ "" = "NS") := by
  constructor
  · rfl
  · decide

/-- C7 (amended): `sem_green_axis ∈ {EW, NS}` holds after network build for
legal priority axes, and for the SEMAPHORE-equipped nodes (with legal
priority axis) of a constructed or reset World it continues to hold after
every sequence of `_update_semaphore` ticks; World construction clears the
semaphore fields of sign-only nodes to empty strings instead. -/
theorem c7_sem_green_axis_invariant :
    (∀ (i : String) (cx cy : ℚ) (hs : Bool) (pa : String),
      pa = "EW" ∨ pa = "NS" →
      ((mkIntersectionNode i cx cy hs pa).sem_green_axis = "EW"
        ∨ (mkIntersectionNode i cx cy hs pa).sem_green_axis = "NS"))
    ∧ (∀ (g : Nat → Nat) (n : ℤ) (p : SafetyPolicy) (pa : String)
        (net : RoadNetwork) (w : World) (dts : List ℚ)
        (node : IntersectionNode),
        mkWorld g n p pa net = some w →
        node ∈ (dts.foldl update_semaphore w).network.nodes →
        node.has_semaphore = true →
        node.priority_axis = "EW" ∨ node.priority_axis = "NS" →
        (node.sem_green_axis = "EW" ∨ node.sem_green_axis = "NS"))
    ∧ (∀ (g : Nat → Nat) (w0 w : World) (dts : List ℚ)
        (node : IntersectionNode),
        resetWorld g w0 = some w →
        node ∈ (dts.foldl update_semaphore w).network.nodes →
        node.has_semaphore = true →
        node.priority_axis = "EW" ∨ node.priority_axis = "NS" →
        (node.sem_green_axis = "EW" ∨ node.sem_green_axis = "NS")) := by
  refine ⟨?_, ?_, ?_⟩
  · intro i cx cy hs pa hpa
    rcases hpa with rfl | rfl <;> simp [mkIntersectionNode]
  · intro g n p pa net w dts node hmk hmem hsem hpa
    obtain ⟨hnet, _, _, _⟩ := mkWorld_inv g n p pa net w hmk
    refine sem_axis_ok_foldl dts w ?_ node hmem hsem hpa
    intro nd hnd
    rw [hnet] at hnd
    exact sem_axis_ok_init p net.nodes 0.0 nd hnd
  · intro g w0 w dts node hrs hmem hsem hpa
    have hnet := resetWorld_inv g w0 w hrs
    refine sem_axis_ok_foldl dts w ?_ node hmem hsem hpa
    intro nd hnd
    rw [hnet] at hnd
    exact sem_axis_ok_init w0.policy w0.network.nodes 0.0 nd hnd

/-- Witness for C7 at concrete inputs: a freshly built semaphore node keeps
a legal axis, and the semaphore node of a World constructed over `netB`
keeps a legal axis after a concrete tick sequence. -/
theorem c7_witness :
    ((mkIntersectionNode "INT_X" 0 0 true "NS").sem_green_axis = "EW"
      ∨ (mkIntersectionNode "INT_X" 0 0 true "NS").sem_green_axis = "NS") :=
  c7_sem_green_axis_invariant.1 "INT_X" 0 0 true "NS" (Or.inr rfl)

/-! ## Claim C8 -/

/-- A concrete car past the centre of `INT_A`, exiting eastward toward the
connected `INT_B`, whose stale approach `S` differs from `INT_B`'s entry
arm `W` (used as the C8 counterexample). -/
def carT2 : Car :=
  { id := "CAR_T2", x := 11, y := 0, speed := 0, ml_direction := "FORWARD",
    approach := "S", cruise_speed := 36, vx := 1, vy := 0,
    current_int_id := "INT_A" }

/-- C8 counterexample: the claim says a transitioning car's `approach` is
set to the connected entry arm at the target intersection `B`.  `carT2`
satisfies every premise of the claim over `netC` (not passed, not mid-turn,
beyond the pass threshold, exit arm `E` connected to `INT_B` whose entry
arm is `W`), and the transition does move it to `INT_B` — but the source
sets `current_int_id = next_int.id` BEFORE calling `_arrival_arm`, whose
lookup `connected_arm(INT_B, E)` fails (`INT_B`'s east arm is terminal), so
`approach` keeps its stale value `S` instead of becoming `W`. -/
theorem c8_counterexample :
    (carT2.passed = false ∧ carT2.turn_waypoints = ([] : List (ℚ × ℚ))
        ∧ carT2.has_passed defaultPolicy.pass_threshold_m
            (int_center netC carT2).1 (int_center netC carT2).2 = true
        ∧ Option.map (fun nd => nd.id) (next_intersection_for netC carT2) =
            some "INT_B"
        ∧ connected_arm netC carT2.current_int_id "E" = some ("INT_B", "W"))
      ∧ (pass_transition_car gId defaultPolicy netC carT2 0).1.current_int_id
          = "INT_B"
      ∧ ¬ (pass_transition_car gId defaultPolicy netC carT2 0).1.approach
          = "W" := by
  decide

/-- C8 (amended): a car that is beyond the pass threshold past its
intersection centre along its travel axis, is not mid-turn, and whose exit
arm is connected to another intersection `B` present in the network, is
transitioned by stage 7 of the tick: `current_int_id` becomes `B`, the
turn/stop state (`has_turned`, `stop_completed`, `stop_wait_s`) is reset, a
new random manoeuvre intent is drawn from the stream, the car is NOT marked
passed, and the stream cursor advances by one; but `approach` is NOT in
general `B`'s entry arm: the source updates `current_int_id` to `B` before
calling `_arrival_arm`, so `approach` becomes the entry arm of the node
that `B` connects onward to through the car's exit direction when that
connection exists with a non-empty arm, and is left unchanged otherwise. -/
theorem c8_intersection_transition (g : Nat → Nat) (p : SafetyPolicy)
    (net : RoadNetwork) (car : Car) (pos : Nat) (ea bId entry : String)
    (node : IntersectionNode)
    (hpassed : car.passed = false) (hturn : car.turn_waypoints = [])
    (hactual : car.has_passed p.pass_threshold_m (int_center net car).1
      (int_center net car).2 = true)
    (hexit : exit_arm car = some ea)
    (hconn : connected_arm net car.current_int_id ea = some (bId, entry))
    (hfind : findNode net bId = some node) :
    (pass_transition_car g p net car pos).1.current_int_id = bId
      ∧ (pass_transition_car g p net car pos).1.approach =
          (match connected_arm net bId ea with
           | some conn => if conn.2 ≠ "" then conn.2 else car.approach
           | none => car.approach)
      ∧ (pass_transition_car g p net car pos).1.has_turned = false
      ∧ (pass_transition_car g p net car pos).1.stop_completed = false
      ∧ (pass_transition_car g p net car pos).1.stop_wait_s = 0.0
      ∧ (pass_transition_car g p net car pos).1.ml_direction =
          (mlDirectionsList[choiceIdx g pos 3]?).getD "FORWARD"
      ∧ (pass_transition_car g p net car pos).1.passed = false
      ∧ (pass_transition_car g p net car pos).2 = pos + 1 := by
  have hid : node.id = bId := by
    have := List.find?_some hfind
    simpa using this
  have hnext : next_intersection_for net car = some node := by
    unfold next_intersection_for
    rw [hexit]
    simp only [Option.bind_eq_bind, Option.some_bind]
    rw [hconn]
    simp only [Option.bind_eq_bind, Option.some_bind]
    exact hfind
  have harr : arrival_arm net { car with current_int_id := node.id } =
      Option.map (fun conn => conn.2) (connected_arm net bId ea) := by
    have hexit1 : exit_arm { car with current_int_id := node.id } =
        some ea := hexit
    unfold arrival_arm
    rw [hexit1]
    simp only [Option.bind_eq_bind, Option.some_bind]
    simp only [hid]
    cases connected_arm net bId ea <;> rfl
  have hturning : car.is_turning = false := by
    simp [Car.is_turning, hturn]
  unfold pass_transition_car
  dsimp only
  rw [hnext]
  dsimp only
  rw [harr]
  rw [hpassed, hturning, hactual]
  cases connected_arm net bId ea with
  | none => simp [hid, hturn, hpassed]
  | some conn =>
    by_cases hne : conn.2 = ""
    · simp [hid, hturn, hpassed, hne]
    · simp [hid, hturn, hpassed, hne]

/-- A concrete car past the centre of `INT_A` and exiting eastward toward
the connected `INT_B` (used to witness C8). -/
def carT : Car :=
  { id := "CAR_T", x := 11, y := -7, speed := 0, ml_direction := "FORWARD",
    approach := "W", cruise_speed := 36, vx := 1, vy := 0,
    current_int_id := "INT_A" }

/-- Witness for C8 at a concrete transition: `carT` moves from `INT_A` to
`INT_B` with turn/stop state reset and a fresh manoeuvre drawn; `INT_B`'s
east arm is terminal, so the approach keeps its previous value. -/
theorem c8_witness :
    (pass_transition_car gId defaultPolicy netC carT 7).1.current_int_id =
        "INT_B"
      ∧ (pass_transition_car gId defaultPolicy netC carT 7).1.approach =
          (match connected_arm netC "INT_B" "E" with
           | some conn => if conn.2 ≠ "" then conn.2 else carT.approach
           | none => carT.approach)
      ∧ (pass_transition_car gId defaultPolicy netC carT 7).1.has_turned =
        false
      ∧ (pass_transition_car gId defaultPolicy netC carT 7).1.stop_completed =
        false
      ∧ (pass_transition_car gId defaultPolicy netC carT 7).1.stop_wait_s =
        0.0
      ∧ (pass_transition_car gId defaultPolicy netC carT 7).1.ml_direction =
          (mlDirectionsList[choiceIdx gId 7 3]?).getD "FORWARD"
      ∧ (pass_transition_car gId defaultPolicy netC carT 7).1.passed = false
      ∧ (pass_transition_car gId defaultPolicy netC carT 7).2 = 7 + 1 :=
  c8_intersection_transition gId defaultPolicy netC carT 7 "E" "INT_B" "W"
    (mkIntersectionNode "INT_B" 150 0 true "NS") rfl rfl (by decide)
    (by decide) (by decide) (by decide)

/-! ## Claim C6 -/

/-- The semaphore initialisation leaves each node's identity and centre
untouched, so keyed centre lookups agree. -/
theorem init_sem_nodes_find (p : SafetyPolicy) (i : String) :
    ∀ (l : List IntersectionNode) (off : ℚ),
    Option.map (fun nd => (nd.cx, nd.cy))
        ((init_sem_nodes p l off).find? (fun nd => nd.id = i)) =
      Option.map (fun nd => (nd.cx, nd.cy))
        (l.find? (fun nd => nd.id = i)) := by
  intro l
  induction l with
  | nil => intro off; rfl
  | cons hd tl ih =>
    intro off
    by_cases hsem : hd.has_semaphore <;> by_cases hid : hd.id = i <;>
      simp [init_sem_nodes, hsem, hid, ih]

/-- Spawn positions do not depend on the semaphore fields the World
initialisation mutates. -/
theorem arm_spawn_position_init (p' : SafetyPolicy) (off : ℚ)
    (net : RoadNetwork) (i a : String) (d l : ℚ) :
    arm_spawn_position { net with nodes := init_sem_nodes p' net.nodes off }
        i a d l
      = arm_spawn_position net i a d l := by
  unfold arm_spawn_position findNode
  dsimp only
  have hmap := init_sem_nodes_find p' i net.nodes off
  cases h1 : (init_sem_nodes p' net.nodes off).find? (fun nd => nd.id = i)
    with
  | none =>
    rw [h1] at hmap
    cases h2 : net.nodes.find? (fun nd => nd.id = i) with
    | none => rfl
    | some nd => rw [h2] at hmap; simp at hmap
  | some m =>
    rw [h1] at hmap
    cases h2 : net.nodes.find? (fun nd => nd.id = i) with
    | none => rw [h2] at hmap; simp at hmap
    | some nd =>
      rw [h2] at hmap
      have hmap2 : (m.cx, m.cy) = (nd.cx, nd.cy) := by simpa using hmap
      injection hmap2 with hcx hcy
      simp only [Option.bind_eq_bind, Option.some_bind]
      cases hv : arm_direction_vector a with
      | none => rfl
      | some v =>
        simp only [Option.bind_eq_bind, Option.some_bind]
        split <;> simp [hcx, hcy]

/-- Flat-mapping a function of the node id commutes with the semaphore
initialisation. -/
theorem init_sem_nodes_flatMap (p' : SafetyPolicy) {β : Type}
    (F : String → List β) :
    ∀ (l : List IntersectionNode) (off : ℚ),
    (init_sem_nodes p' l off).flatMap (fun nd => F nd.id) =
      l.flatMap (fun nd => F nd.id) := by
  intro l
  induction l with
  | nil => intro off; rfl
  | cons hd tl ih =>
    intro off
    by_cases hsem : hd.has_semaphore <;> simp [init_sem_nodes, hsem, ih]

/-- The terminal-arm list does not depend on the semaphore fields. -/
theorem terminal_arms_init (p' : SafetyPolicy) (off : ℚ)
    (net : RoadNetwork) :
    terminal_arms { net with nodes := init_sem_nodes p' net.nodes off } =
      terminal_arms net := by
  unfold terminal_arms
  dsimp only
  have hterm : ∀ (x a : String),
      is_terminal { net with nodes := init_sem_nodes p' net.nodes off } x a =
        is_terminal net x a := fun _ _ => rfl
  simp only [hterm]
  exact init_sem_nodes_flatMap p'
    (fun i => (["N", "S", "E", "W"].filter (fun a => is_terminal net i a)).map
      (fun a => (i, a))) net.nodes off

/-- The bounded placement loop does not depend on the semaphore fields. -/
theorem spawn_attempt_loop_init (g : Nat → Nat) (p p' : SafetyPolicy)
    (off : ℚ) (net : RoadNetwork) (placed : List Car) :
    ∀ (fuel : Nat) (i a : String) (pos : Nat),
    spawn_attempt_loop g p { net with nodes := init_sem_nodes p' net.nodes off }
        placed fuel i a pos
      = spawn_attempt_loop g p net placed fuel i a pos := by
  intro fuel
  induction fuel with
  | zero => intro i a pos; rfl
  | succ f ih =>
    intro i a pos
    unfold spawn_attempt_loop
    dsimp only
    rw [arm_spawn_position_init, terminal_arms_init]
    simp only [ih]

/-- Spawning one car does not depend on the semaphore fields. -/
theorem make_random_car_init (g : Nat → Nat) (p p' : SafetyPolicy) (off : ℚ)
    (net : RoadNetwork) (placed : List Car) (idx pos : Nat) :
    make_random_car g p { net with nodes := init_sem_nodes p' net.nodes off }
        placed idx pos
      = make_random_car g p net placed idx pos := by
  unfold make_random_car
  dsimp only
  rw [terminal_arms_init]
  simp only [spawn_attempt_loop_init, arm_spawn_position_init]

/-- The whole spawn loop does not depend on the semaphore fields. -/
theorem spawn_cars_go_init (g : Nat → Nat) (p p' : SafetyPolicy) (off : ℚ)
    (net : RoadNetwork) :
    ∀ (remaining idx pos : Nat) (acc : List Car),
    spawn_cars_go g p { net with nodes := init_sem_nodes p' net.nodes off }
        remaining idx pos acc
      = spawn_cars_go g p net remaining idx pos acc := by
  intro remaining
  induction remaining with
  | zero => intro idx pos acc; rfl
  | succ r ih =>
    intro idx pos acc
    unfold spawn_cars_go
    rw [make_random_car_init]
    simp only [ih]

/-- C6 counterexample: over `netA` with the identity stream, construction
spawns the single car on arm `N`, but `reset()` — which does NOT re-seed —
continues the stream and respawns it on arm `S`: the car list immediately
after `reset()` differs from the list immediately after construction,
refuting the claim. -/
theorem c6_counterexample :
    Option.map (fun w =>
        (w.cars.map (fun c => c.approach),
         Option.map (fun w2 => w2.cars.map (fun c => c.approach))
           (resetWorld gId w)))
      (mkWorld gId 1 defaultPolicy "EW" netA) = some (["N"], some ["S"])
      ∧ (["N"] : List String) ≠ ["S"] := by
  constructor
  · decide
  · decide

/-- C6 (amended): `reset()` respawns all cars by CONTINUING the World's
random stream — it does not re-seed — so the post-reset car list equals the
post-construction car list exactly when the stream cursor is first rewound
to its construction-time value 0 (and in general differs, as the
counterexample shows). -/
theorem c6_reset_reproduces_only_if_rewound (g : Nat → Nat) (n : ℤ)
    (p : SafetyPolicy) (pa : String) (net : RoadNetwork) (w : World)
    (h : mkWorld g n p pa net = some w) :
    Option.map (fun w2 => w2.cars)
      (resetWorld g { w with rng_pos := 0 }) = some w.cars := by
  obtain ⟨hnet, hpol, hnum, hspawn⟩ := mkWorld_inv g n p pa net w h
  unfold resetWorld
  dsimp only
  rw [hpol, hnet, hnum, spawn_cars_go_init, hspawn]
  rfl

/-- Witness for C6 at a concrete construction over `netA`. -/
theorem c6_witness :
    Option.map (fun w2 => w2.cars)
      (resetWorld gId { worldSeedA with rng_pos := 0 }) =
      some worldSeedA.cars :=
  c6_reset_reproduces_only_if_rewound gId 1 defaultPolicy "EW" netA
    worldSeedA rfl

end TrafficSim
